import Mathlib

/-!
Verification of the token-resolution and CSS-synthesis engine of the
figma-variable-to-css plugin (src/unnamed/part_000).

Shallow embedding conventions:
* JS numbers are modelled as rationals (`ℚ`).  Every number the emitter
  prints has first been passed through `round` (2 or 4 decimals), so its
  denominator divides 10^4; `fmtQ` prints such rationals exactly the way
  JS `String(n)` prints the corresponding double (shortest decimal).
* JS strings are Lean `String`s; `indexOf(x) !== -1` is `strContains`,
  `indexOf(x) === 0` is `strStarts`.  `\s` in the source regexes is
  modelled as the space character (collection/variable names are
  single-line in the upstream input).
* `Array.prototype.sort` is stable (ES2019); a stable sort w.r.t. a total
  preorder is extensionally unique, so it is embedded as the stable
  insertion sort `sortS`.
* The mutable `outputtedCSSNames : Set<string>` is threaded as an
  explicit `List String` accumulator (`addName` preserves the set
  semantics); the `errors : string[]` array is appended to only by the
  alias-resolution pass (`resolveAliasNames`) — no emission function in
  the source ever pushes to it, so emission functions do not carry it.
* The candidate-report accumulation (viewportCandidates, proportion- and
  nonLinear-candidates) only feeds the UI report; it never influences the
  emitted lines, the dedup set or the diagnostics, and is elided.
* The timestamp (`new Date().toISOString()`) is taken as a parameter.
-/

namespace FigVar

/-! ## String utilities (JS `indexOf`, `startsWith`, `trim`) -/

/-- `startsWithL p s`: the char list `p` is a leading segment of `s`. -/
def startsWithL : List Char → List Char → Bool
  | [], _ => true
  | _ :: _, [] => false
  | p :: ps, c :: cs => p == c && startsWithL ps cs

/-- Occurrence of `p` anywhere in `s` (JS `s.indexOf(p) !== -1`). -/
def containsLAux (p : List Char) : List Char → Bool
  | [] => startsWithL p []
  | c :: cs => startsWithL p (c :: cs) || containsLAux p cs

/-- JS `s.indexOf(pat) !== -1`. -/
def strContains (s pat : String) : Bool := containsLAux pat.data s.data

/-- JS `s.indexOf(pat) === 0`. -/
def strStarts (s pat : String) : Bool := startsWithL pat.data s.data

/-! ## JS number formatting over `ℚ` -/

/-- JS `Math.round`: half-values round toward positive infinity. -/
def mathRound (x : ℚ) : ℤ := ⌊x + 1/2⌋

/-- `round(value, decimals)` from the source: multiply, `Math.round`, divide. -/
def round (value : ℚ) (decimals : ℕ) : ℚ :=
  let factor : ℚ := 10 ^ decimals
  (mathRound (value * factor) : ℚ) / factor

/-- Left-pad a digit string with zeros to 4 characters. -/
def padLeft4 (s : String) : String :=
  String.mk (List.replicate (4 - s.length) '0') ++ s

/-- Drop trailing `'0'` characters. -/
def stripTrailZeros (s : String) : String :=
  String.mk ((s.data.reverse.dropWhile (fun c => c == '0')).reverse)

/-- Print a nonnegative rational whose denominator divides 10^4 the way JS
prints the corresponding double. -/
def fmtNN (q : ℚ) : String :=
  let ip : ℕ := (⌊q⌋).toNat
  let fr : ℕ := (⌊(q - (ip : ℚ)) * 10000⌋).toNat
  if fr = 0 then toString ip
  else toString ip ++ "." ++ stripTrailZeros (padLeft4 (toString fr))

/-- JS `String(n)` for the rationals produced by `round`. -/
def fmtQ (q : ℚ) : String := if q < 0 then "-" ++ fmtNN (-q) else fmtNN q

/-! ## Stable sort (JS `Array.prototype.sort` with a comparator) -/

/-- Stable insert: `x` goes after every `y` with `le y x`. -/
def insertS (le : α → α → Bool) (x : α) : List α → List α
  | [] => [x]
  | y :: ys => if le y x then y :: insertS le x ys else x :: y :: ys

/-- Stable sort by the boolean preorder `le` (`le a b` ↔ comparator ≤ 0). -/
def sortS (le : α → α → Bool) (l : List α) : List α :=
  l.foldr (insertS le) []

/-! ## Data model (TYPES section of the source) -/

inductive LayerType where
  | foundations | aliases | aliasesExtended | mappings | other
  deriving DecidableEq, Repr

inductive VarType where
  | COLOR | FLOAT | STRING | BOOLEAN
  deriving DecidableEq, Repr

inductive OutputMode where
  | fluid | fixed
  deriving DecidableEq, Repr

inductive BreakpointDirection where
  | mobileFirst | desktopFirst
  deriving DecidableEq, Repr

inductive AliasMode where
  | preserved | resolved
  deriving DecidableEq, Repr

inductive DarkModeOutput where
  | prefersColorScheme | classAttr | both
  deriving DecidableEq, Repr

inductive ColorFormat where
  | hex | oklch
  deriving DecidableEq, Repr

/-- A resolved scalar: string (color/string values) or number (float/boolean). -/
inductive RVal where
  | str : String → RVal
  | num : ℚ → RVal
  deriving DecidableEq, Repr

/-- JS `String(v)` on a resolved scalar. -/
def rvalToString : RVal → String
  | .str s => s
  | .num q => fmtQ q

/-- JS string concatenation with a possibly-null resolved value. -/
def rvalOptToString : Option RVal → String
  | none => "null"
  | some r => rvalToString r

structure ProcessedValue where
  isAlias : Bool
  aliasId : Option String
  aliasName : Option String
  resolved : Option RVal
  deriving DecidableEq, Repr

structure VariableInfo where
  id : String
  name : String
  description : String
  collectionId : String
  collectionName : String
  domain : String
  layerType : LayerType
  resolvedType : VarType
  valuesByMode : List (String × ProcessedValue)
  isAlias : Bool
  cssName : String
  deriving DecidableEq, Repr

structure ModeRec where
  modeId : String
  name : String
  deriving DecidableEq, Repr

structure CollectionRec where
  id : String
  name : String
  remote : Bool
  modes : List ModeRec
  deriving DecidableEq, Repr

structure ModeInfo where
  modeId : String
  name : String
  breakpointPx : Option ℕ
  deriving DecidableEq, Repr

/-- A mode as used inside the breakpoint strategies (`breakpointPx` defaulted
to 0 by `detectBreakpoint(m.name) || 0`, hence an integer). -/
structure BPMode where
  modeId : String
  name : String
  breakpointPx : ℤ
  deriving DecidableEq, Repr

def dummyBP : BPMode := ⟨"", "", 0⟩

def dummyModeRec : ModeRec := ⟨"", ""⟩

structure ExportOptions where
  outputMode : OutputMode
  breakpointDirection : BreakpointDirection
  aliasMode : AliasMode
  darkModeOutput : DarkModeOutput
  includeTimestamp : Bool
  includeIds : Bool
  colorFormat : ColorFormat
  includeLegacyFallbacks : Bool
  viewportRelativeOverrides : Option (List String)
  nonLinearOverrides : Option (List String)
  deriving DecidableEq, Repr

structure FluidResult where
  value : String
  isViewportRelative : Bool
  deriving DecidableEq, Repr

/-! ## Constants -/

/-- Known breakpoint mode names and their viewport widths, in the source's
insertion order (the table at its default seeding). -/
def BREAKPOINT_MODES : List (String × ℕ) :=
  [("desktop", 1680), ("laptop", 1366), ("tablet", 840), ("mobile", 480)]

def THEME_MODES : List String := ["light", "dark"]

/-- Keywords in varInfo names that indicate unitless numeric values. -/
def UNITLESS_KEYWORDS : List String :=
  ["weight", "column-count", "column count", "columncount",
   "opacity", "z-index", "zindex", "z index",
   "order", "flex-grow", "flex-shrink", "flex grow", "flex shrink",
   "ratio", "columns", "rows", "count"]

def FONT_STYLE_KEYWORDS : List String := ["italic", "oblique", "normal"]

/-- Proportion name to column count mapping, in source order
(longest patterns first). -/
def PROPORTION_COLUMNS : List (List String × ℕ) :=
  [(["three-quarters", "three quarters", "threequarters",
     "three-quarter", "three quarter", "threequarter"], 9),
   (["two-thirds", "two thirds", "twothirds",
     "two-third", "two third", "twothird"], 8),
   (["quarter"], 3),
   (["whole"], 12),
   (["third"], 4),
   (["half"], 6)]

/-! ## Collection classification -/

structure ParsedCollection where
  domain : String
  layer : String
  layerType : LayerType
  deriving DecidableEq, Repr

def isAsciiLetter (c : Char) : Bool :=
  ('A' ≤ c && c ≤ 'Z') || ('a' ≤ c && c ≤ 'z')

/-- Maximal leading run of ASCII letters, with the remainder. -/
def takeLetters : List Char → List Char × List Char
  | [] => ([], [])
  | c :: cs =>
    if isAsciiLetter c then
      let p := takeLetters cs
      (c :: p.1, p.2)
    else ([], c :: cs)

/-- The regex `^([A-Za-z]+)\s*-\s*(.+)$` of `parseCollectionName`:
maximal leading letters, optional spaces, a hyphen, then a nonempty rest
(the `\s*` before `(.+)` eats leading spaces as long as the capture stays
nonempty). -/
def collectionNameMatch (name : String) : Option (String × String) :=
  match takeLetters name.data with
  | ([], _) => none
  | (ls, rest) =>
    match rest.dropWhile (fun c => c == ' ') with
    | '-' :: r2 =>
      if r2 = [] then none
      else
        let r3 := r2.dropWhile (fun c => c == ' ')
        some (String.mk ls, String.mk (if r3 = [] then [' '] else r3))
    | _ => none

def parseCollectionName (name : String) : ParsedCollection :=
  let m := collectionNameMatch name
  let domain := match m with
    | some p => p.1.toLower
    | none => name.toLower
  let layer := match m with
    | some p => p.2.trim
    | none => "default"
  let lowerName := name.toLower
  let layerType : LayerType :=
    if strContains lowerName "foundation" then .foundations
    else if strContains lowerName "extended" || strContains lowerName "2.1" then .aliasesExtended
    else if strContains lowerName "alias" then .aliases
    else if strContains lowerName "mapping" then .mappings
    else .other
  ⟨domain, layer, layerType⟩

def detectBreakpoint (modeName : String) : Option ℕ :=
  let lower := modeName.toLower
  (BREAKPOINT_MODES.find? (fun e => strContains lower e.1)).map (fun e => e.2)

inductive ModeType where
  | breakpoint | theme | single
  deriving DecidableEq, Repr

def detectModeType (modes : List ModeInfo) : ModeType :=
  if modes.length = 1 then .single
  else if modes.all (fun m => m.breakpointPx.isSome) then .breakpoint
  else if modes.any (fun m => THEME_MODES.any (fun k => strContains m.name.toLower k)) then .theme
  else .single

/-! ## Name generation (`generateCSSName`) -/

/-- Path separators, dots and commas become hyphens. -/
def slugSepToHyphen (c : Char) : Char :=
  if c == '/' || c == '.' || c == ',' then '-' else c

/-- Whitespace runs: each maximal run of spaces becomes one hyphen. -/
def spaceRunsAux : Bool → List Char → List Char
  | _, [] => []
  | inRun, c :: cs =>
    if c == ' ' then
      if inRun then spaceRunsAux true cs else '-' :: spaceRunsAux true cs
    else c :: spaceRunsAux false cs

/-- Characters outside lowercase letters, digits and hyphen become hyphens. -/
def nonAlnumToHyphen (c : Char) : Char :=
  if ('a' ≤ c && c ≤ 'z') || ('0' ≤ c && c ≤ '9') || c == '-' then c else '-'

/-- Emit a run of `n` pending hyphens, collapsed to 2 when `n ≥ 3`. -/
def emitHyphens (n : ℕ) : List Char :=
  if n ≥ 3 then ['-', '-'] else List.replicate n '-'

/-- Collapse each run of three or more hyphens to exactly two. -/
def collapseHyphensAux : ℕ → List Char → List Char
  | n, [] => emitHyphens n
  | n, c :: cs =>
    if c == '-' then collapseHyphensAux (n + 1) cs
    else emitHyphens n ++ c :: collapseHyphensAux 0 cs

/-- Trim leading and trailing hyphens. -/
def trimHyphens (l : List Char) : List Char :=
  ((l.dropWhile (fun c => c == '-')).reverse.dropWhile (fun c => c == '-')).reverse

/-- The slug pipeline of `generateCSSName` before the prefix policy. -/
def slugify (varName : String) : String :=
  String.mk (trimHyphens (collapseHyphensAux 0
    ((spaceRunsAux false (varName.toLower.data.map slugSepToHyphen)).map nonAlnumToHyphen)))

def commonDomains : List String :=
  ["typo", "space", "color", "dimension", "static", "size", "radius", "border"]

def generateCSSName (varName domain : String) (layerType : LayerType) : String :=
  let cssName := slugify varName
  match layerType with
  | .mappings => "--" ++ cssName
  | .foundations | .aliases | .aliasesExtended =>
    if !strStarts cssName (domain ++ "-") && cssName ≠ domain then
      "--" ++ domain ++ "-" ++ cssName
    else "--" ++ cssName
  | .other =>
    let hasExistingDomain := commonDomains.any (fun d => strStarts cssName (d ++ "-"))
    if !hasExistingDomain && !strStarts cssName (domain ++ "-") then
      "--" ++ domain ++ "-" ++ cssName
    else "--" ++ cssName

/-! ## Unitless classification (`matchesAsSegment`, `isUnitless`) -/

/-- Segment boundary characters: hyphen, slash, dot, space. -/
def boundaryChar (c : Char) : Bool :=
  c == '-' || c == '/' || c == '.' || c == ' '

/-- The keyword occurs at position `i` of `t` with segment boundaries on both
sides.  The source loop walks every occurrence via `indexOf` and tests exactly
these two boundary conditions. -/
def segmentAt (t k : List Char) (i : ℕ) : Bool :=
  startsWithL k (t.drop i)
  && (decide (i = 0) || boundaryChar (t.getD (i - 1) ' '))
  && (decide (i + k.length = t.length) || boundaryChar (t.getD (i + k.length) ' '))

/-- `matchesAsSegment(text, keyword)`: some occurrence of the keyword is
bounded on both sides by `-`, `/`, `.`, space, or a string edge. -/
def matchesAsSegment (text keyword : String) : Bool :=
  (List.range (text.length + 1)).any (fun i => segmentAt text.data keyword.data i)

def isUnitless (varInfo : VariableInfo) : Bool :=
  let nameLower := varInfo.name.toLower
  let cssNameLower := varInfo.cssName.toLower
  UNITLESS_KEYWORDS.any (fun k =>
    matchesAsSegment nameLower k || matchesAsSegment cssNameLower k)

def isFontStyleValue (value : String) : Bool :=
  let lower := value.toLower.trim
  FONT_STYLE_KEYWORDS.any (fun k => lower == k) || strStarts lower "oblique "

/-! ## Proportions -/

def getProportionColumnCount (varInfo : VariableInfo) : Option ℕ :=
  let nameLower := varInfo.name.toLower
  if !strContains nameLower "proportion" then none
  else if strContains nameLower "viewport" then none
  else
    (PROPORTION_COLUMNS.find? (fun e => e.1.any (fun p => strContains nameLower p))).map
      (fun e => e.2)

def shouldUseProportion (varInfo : VariableInfo) (_options : ExportOptions) : Bool :=
  (getProportionColumnCount varInfo).isSome

/-! ## Special-treatment predicates -/

def getViewportCandidateReason (varInfo : VariableInfo) : Option String :=
  if strContains varInfo.name.toLower "viewport" then some "name"
  else if strContains varInfo.description.toLower "viewport" then some "description"
  else none

def shouldUseViewportRelative (varInfo : VariableInfo) (options : ExportOptions) : Bool :=
  match options.viewportRelativeOverrides with
  | some l => if l.length > 0 then l.contains varInfo.cssName else false
  | none => false

def shouldUsePiecewiseClamp (varInfo : VariableInfo) (options : ExportOptions) : Bool :=
  match options.nonLinearOverrides with
  | some l => if l.length > 0 then l.contains varInfo.cssName else false
  | none => false

/-! ## Value formatting -/

/-- JS truthiness of `value.aliasName` (a defined, nonempty string). -/
def aliasNameTruthy (value : ProcessedValue) : Bool :=
  match value.aliasName with
  | some s => s ≠ ""
  | none => false

/-- The numeric content of a resolved value.  For a `FLOAT` varInfo the
source computes `round(value.resolved as number, 2)`; a string here would be
`NaN` in JS, but is unreachable: `processValue` resolves `FLOAT` raw values
to a number or `null`. -/
def rvalNum : RVal → ℚ
  | .num q => q
  | .str _ => 0

def formatCSSValue (value : ProcessedValue) (varInfo : VariableInfo)
    (options : ExportOptions) : Option String :=
  if options.aliasMode == .preserved && value.isAlias && aliasNameTruthy value then
    some ("var(" ++ value.aliasName.getD "" ++ ")")
  else
    match value.resolved with
    | none => none
    | some r =>
      match varInfo.resolvedType with
      | .COLOR => some (rvalToString r)
      | .FLOAT =>
        let rounded := round (rvalNum r) 2
        if isUnitless varInfo then some (fmtQ rounded)
        else some (fmtQ rounded ++ "px")
      | .STRING =>
        match r with
        | .str s =>
          if isFontStyleValue s then some s.toLower.trim
          else some ("\"" ++ s ++ "\"")
        | .num q => some ("\"" ++ fmtQ q ++ "\"")
      | .BOOLEAN => some (rvalToString r)

/-! ## Mode variance and media-query classification -/

/-- `formatCSSValue` lifted over the possibly-missing mode record.  The source
would throw on a missing first-mode value; a missing value is modelled as a
null formatted value. -/
def fmtAt (varInfo : VariableInfo) (options : ExportOptions) (modeId : String) :
    Option String :=
  match varInfo.valuesByMode.lookup modeId with
  | none => none
  | some v => formatCSSValue v varInfo options

def hasModeVariance (varInfo : VariableInfo) (modes : List BPMode)
    (options : ExportOptions) : Bool :=
  if modes.length ≤ 1 then false
  else
    match modes with
    | [] => false
    | m0 :: rest =>
      let firstValue := fmtAt varInfo options m0.modeId
      rest.any (fun m =>
        match varInfo.valuesByMode.lookup m.modeId with
        | none => false
        | some v => formatCSSValue v varInfo options ≠ firstValue)

def needsMediaQueries (varInfo : VariableInfo) (modes : List BPMode)
    (options : ExportOptions) : Bool :=
  if !hasModeVariance varInfo modes options then false
  else if varInfo.resolvedType ≠ .FLOAT then true
  else modes.any (fun m =>
    match varInfo.valuesByMode.lookup m.modeId with
    | none => false
    | some v => v.isAlias)

/-! ## Fluid / piecewise value generation -/

def generateFluidValue (modes : List BPMode) (varInfo : VariableInfo)
    (options : ExportOptions) : FluidResult :=
  let maxMode := modes.headD dummyBP
  let minMode := modes.getLastD dummyBP
  let maxValue : Option RVal :=
    (varInfo.valuesByMode.lookup maxMode.modeId).bind (fun v => v.resolved)
  let minValue : Option RVal :=
    (varInfo.valuesByMode.lookup minMode.modeId).bind (fun v => v.resolved)
  let unitless := isUnitless varInfo
  let unit := if unitless then "" else "px"
  match maxValue, minValue with
  | some (.num maxV), some (.num minV) =>
    if shouldUseViewportRelative varInfo options then
      ⟨"min(100vw, " ++ fmtQ (round maxV 2) ++ unit ++ ")", true⟩
    else if unitless && maxV == minV then
      ⟨fmtQ (round maxV 2), false⟩
    else
      let maxVP : ℚ := (maxMode.breakpointPx : ℚ)
      let minVP : ℚ := (minMode.breakpointPx : ℚ)
      let slope := (maxV - minV) / (maxVP - minVP)
      let intercept := minV - slope * minVP
      let slopeVW := round (slope * 100) 4
      let interceptPx := round intercept 2
      let minPx := round (min minV maxV) 2
      let maxPx := round (max minV maxV) 2
      let preferred :=
        if interceptPx ≥ 0 then
          fmtQ interceptPx ++ unit ++ " + " ++ fmtQ slopeVW ++ "vw"
        else
          fmtQ slopeVW ++ "vw - " ++ fmtQ |interceptPx| ++ unit
      ⟨"clamp(" ++ fmtQ minPx ++ unit ++ ", calc(" ++ preferred ++ "), " ++
        fmtQ maxPx ++ unit ++ ")", false⟩
  | mv, _ => ⟨rvalOptToString mv ++ unit, false⟩

def generatePiecewiseClampValue (fromMode toMode : BPMode)
    (varInfo : VariableInfo) : String :=
  let fromValue : Option RVal :=
    (varInfo.valuesByMode.lookup fromMode.modeId).bind (fun v => v.resolved)
  let toValue : Option RVal :=
    (varInfo.valuesByMode.lookup toMode.modeId).bind (fun v => v.resolved)
  let unitless := isUnitless varInfo
  let unit := if unitless then "" else "px"
  match fromValue, toValue with
  | some (.num fv), some (.num tv) =>
    if fv == tv then fmtQ (round fv 2) ++ unit
    else
      let fromVP : ℚ := (fromMode.breakpointPx : ℚ)
      let toVP : ℚ := (toMode.breakpointPx : ℚ)
      let slope := (fv - tv) / (fromVP - toVP)
      let intercept := tv - slope * toVP
      let slopeVW := round (slope * 100) 4
      let interceptPx := round intercept 2
      let minPx := round (min fv tv) 2
      let maxPx := round (max fv tv) 2
      let preferred :=
        if interceptPx ≥ 0 then
          fmtQ interceptPx ++ unit ++ " + " ++ fmtQ slopeVW ++ "vw"
        else
          fmtQ slopeVW ++ "vw - " ++ fmtQ |interceptPx| ++ unit
      "clamp(" ++ fmtQ minPx ++ unit ++ ", calc(" ++ preferred ++ "), " ++
        fmtQ maxPx ++ unit ++ ")"
  | fv, _ => rvalOptToString fv ++ unit

/-! ## Dedup / circular-skip gate -/

def shouldSkipVariable (varInfo : VariableInfo) (value : ProcessedValue)
    (outputtedCSSNames : List String) : Bool :=
  (value.isAlias && value.aliasName == some varInfo.cssName) ||
  (outputtedCSSNames.contains varInfo.cssName && varInfo.layerType != LayerType.foundations)

/-- `Set.add` on the threaded dedup set. -/
def addName (set : List String) (n : String) : List String :=
  if set.contains n then set else set ++ [n]

def idComment (options : ExportOptions) (varInfo : VariableInfo) : List String :=
  if options.includeIds then ["  /* " ++ varInfo.id ++ " */"] else []

/-! ## Single-mode and theme emission -/

/-- Body of the default-block loops of `generateThemeCSS` and
`generateSingleModeCSS` (textually identical in the source): accumulator is
(lines so far, dedup set so far). -/
def rootEmitStep (modeId : String) (options : ExportOptions)
    (acc : List String × List String) (varInfo : VariableInfo) :
    List String × List String :=
  match varInfo.valuesByMode.lookup modeId with
  | none => acc
  | some value =>
    if shouldSkipVariable varInfo value acc.2 then acc
    else
      match formatCSSValue value varInfo options with
      | none => acc
      | some cssValue =>
        (acc.1 ++ idComment options varInfo ++
          ["  " ++ varInfo.cssName ++ ": " ++ cssValue ++ ";"],
         addName acc.2 varInfo.cssName)

def generateSingleModeCSS (collection : CollectionRec)
    (vars : List VariableInfo) (options : ExportOptions)
    (outputtedCSSNames : List String) : List String × List String :=
  let mode := collection.modes.headD dummyModeRec
  let p := vars.foldl (rootEmitStep mode.modeId options) ([], outputtedCSSNames)
  ([":root \x7b"] ++ p.1 ++ ["\x7d"], p.2)

/-- Last mode whose lowercased name contains the keyword (the source loop
keeps overwriting). -/
def findLastTheme (modes : List ModeRec) (kw : String) : Option ModeRec :=
  modes.foldl (fun acc m => if strContains m.name.toLower kw then some m else acc) none

/-- One theme re-declaration loop (the source repeats this loop for the two
`prefers-color-scheme` blocks and the two `[data-theme]` blocks, with
indent `"    "` resp. `"  "`). -/
def themeRedeclStep (mode : ModeRec) (options : ExportOptions)
    (outputtedCSSNames : List String) (indent : String)
    (acc : List String) (varInfo : VariableInfo) : List String :=
  match varInfo.valuesByMode.lookup mode.modeId with
  | none => acc
  | some value =>
    if !outputtedCSSNames.contains varInfo.cssName then acc
    else
      match formatCSSValue value varInfo options with
      | none => acc
      | some c => acc ++ [indent ++ varInfo.cssName ++ ": " ++ c ++ ";"]

def themeRedecls (vars : List VariableInfo) (mode : ModeRec)
    (options : ExportOptions) (outputtedCSSNames : List String)
    (indent : String) : List String :=
  vars.foldl (themeRedeclStep mode options outputtedCSSNames indent) []

def generateThemeCSS (collection : CollectionRec)
    (vars : List VariableInfo) (options : ExportOptions)
    (outputtedCSSNames : List String) : List String × List String :=
  let lightMode := findLastTheme collection.modes "light"
  let darkMode := findLastTheme collection.modes "dark"
  let defaultMode := lightMode.getD (collection.modes.headD dummyModeRec)
  let p := vars.foldl (rootEmitStep defaultMode.modeId options) ([], outputtedCSSNames)
  let rootPart := [":root \x7b"] ++ p.1 ++ ["\x7d"]
  let set' := p.2
  match darkMode, lightMode with
  | some dm, some lm =>
    let usePCS := options.darkModeOutput == .prefersColorScheme || options.darkModeOutput == .both
    let useClass := options.darkModeOutput == .classAttr || options.darkModeOutput == .both
    let pcsLight :=
      if usePCS then
        ["", "@media (prefers-color-scheme: light) \x7b", "  :root \x7b"] ++
        themeRedecls vars lm options set' "    " ++ ["  \x7d", "\x7d"]
      else []
    let pcsDark :=
      if usePCS then
        ["", "@media (prefers-color-scheme: dark) \x7b", "  :root \x7b"] ++
        themeRedecls vars dm options set' "    " ++ ["  \x7d", "\x7d"]
      else []
    let dtLight :=
      ["", "/* Explicit theme selectors - These override system preferences",
       "   and enable manual theme switching via JavaScript */",
       "[data-theme=\"light\"] \x7b"] ++
      themeRedecls vars lm options set' "  " ++ ["\x7d"]
    let dtDark :=
      if useClass then
        ["", "[data-theme=\"dark\"] \x7b"] ++
        themeRedecls vars dm options set' "  " ++ ["\x7d"]
      else []
    (rootPart ++ pcsLight ++ pcsDark ++ dtLight ++ dtDark, set')
  | _, _ => (rootPart, set')

/-! ## Fluid (clamp) emission -/

/-- Partition of `generateFluidCSS`: clampable vs. media-query variables.
The skip gate is checked against the set as it stands when the strategy is
entered (the source mutates the set only later, in the `:root` loops). -/
def fluidPartitionStep (largestMode : BPMode) (modes : List BPMode)
    (options : ExportOptions) (set₀ : List String)
    (acc : List VariableInfo × List VariableInfo) (varInfo : VariableInfo) :
    List VariableInfo × List VariableInfo :=
  match varInfo.valuesByMode.lookup largestMode.modeId with
  | none => acc
  | some value =>
    if shouldSkipVariable varInfo value set₀ then acc
    else if needsMediaQueries varInfo modes options then (acc.1, acc.2 ++ [varInfo])
    else (acc.1 ++ [varInfo], acc.2)

/-- The per-variable body of the `:root` loop over clampable variables. -/
def fluidRootBody (modes : List BPMode) (options : ExportOptions)
    (varInfo : VariableInfo) (value : ProcessedValue) (cssValue : String) :
    List String :=
  if hasModeVariance varInfo modes options && varInfo.resolvedType == VarType.FLOAT
      && !value.isAlias then
    if shouldUseProportion varInfo options then
      match getProportionColumnCount varInfo with
      | some columnCount =>
        ["  /* Proportion: " ++ toString columnCount ++ "/12 columns (flex/grid-ready) */",
         "  " ++ varInfo.cssName ++ ": " ++ toString columnCount ++ ";",
         "  " ++ varInfo.cssName ++ "--fr: " ++ toString columnCount ++ "fr;"]
      | none => ["  " ++ varInfo.cssName ++ ": " ++ cssValue ++ ";"]
    else if shouldUsePiecewiseClamp varInfo options then
      ["  /* Piecewise clamp: non-linear scaling (3 segments) */",
       "  " ++ varInfo.cssName ++ ": " ++
         generatePiecewiseClampValue (modes.getD 0 dummyBP) (modes.getD 1 dummyBP) varInfo ++ ";"]
    else
      let fluidResult := generateFluidValue modes varInfo options
      (if fluidResult.isViewportRelative then
        ["  /* Viewport-relative: uses min() instead of clamp() */"]
       else []) ++
      ["  " ++ varInfo.cssName ++ ": " ++ fluidResult.value ++ ";"]
  else ["  " ++ varInfo.cssName ++ ": " ++ cssValue ++ ";"]

def fluidRootStep (modes : List BPMode) (defaultMode : BPMode)
    (options : ExportOptions) (acc : List String × List String)
    (varInfo : VariableInfo) : List String × List String :=
  match varInfo.valuesByMode.lookup defaultMode.modeId with
  | none => acc
  | some value =>
    match formatCSSValue value varInfo options with
    | none => acc
    | some cssValue =>
      (acc.1 ++ idComment options varInfo ++ fluidRootBody modes options varInfo value cssValue,
       addName acc.2 varInfo.cssName)

/-- Default-mode values for media-query variables, inside `:root`. -/
def fluidMqDefaultStep (defaultMode : BPMode) (options : ExportOptions)
    (acc : List String × List String) (varInfo : VariableInfo) :
    List String × List String :=
  match varInfo.valuesByMode.lookup defaultMode.modeId with
  | none => acc
  | some value =>
    match formatCSSValue value varInfo options with
    | none => acc
    | some cssValue =>
      (acc.1 ++ idComment options varInfo ++
        ["  " ++ varInfo.cssName ++ ": " ++ cssValue ++ ";"],
       addName acc.2 varInfo.cssName)

def varsForBreakpoint (mediaQueryVars : List VariableInfo) (mode : BPMode)
    (options : ExportOptions) : List (String × String) :=
  mediaQueryVars.foldl (fun acc varInfo =>
    match varInfo.valuesByMode.lookup mode.modeId with
    | none => acc
    | some val =>
      match formatCSSValue val varInfo options with
      | none => acc
      | some cssValue => acc ++ [(varInfo.cssName, cssValue)]) []

def mqBlock (header : String) (items : List (String × String)) : List String :=
  if items.length > 0 then
    ["", header, "  :root \x7b"] ++
    items.map (fun it => "    " ++ it.1 ++ ": " ++ it.2 ++ ";") ++
    ["  \x7d", "\x7d"]
  else []

def fluidMediaQueryLines (modes : List BPMode)
    (mediaQueryVars : List VariableInfo) (options : ExportOptions)
    (isDesktopFirst : Bool) : List String :=
  if mediaQueryVars.length > 0 then
    if isDesktopFirst then
      (modes.zip modes.tail).foldl (fun acc pm =>
        acc ++ mqBlock
          ("@media (max-width: " ++ toString (pm.1.breakpointPx - 1) ++ "px) \x7b")
          (varsForBreakpoint mediaQueryVars pm.2 options)) []
    else
      ((modes.take (modes.length - 1)).reverse).foldl (fun acc mode =>
        acc ++ mqBlock
          ("@media (min-width: " ++ toString mode.breakpointPx ++ "px) \x7b")
          (varsForBreakpoint mediaQueryVars mode options)) []
  else []

def piecewiseSegLines (piecewiseVars : List VariableInfo)
    (fromMode toMode : BPMode) : List String :=
  piecewiseVars.map (fun v =>
    "    " ++ v.cssName ++ ": " ++ generatePiecewiseClampValue fromMode toMode v ++ ";")

def piecewiseSection (modes : List BPMode) (clampableVars : List VariableInfo)
    (options : ExportOptions) (isDesktopFirst : Bool) : List String :=
  match options.nonLinearOverrides with
  | none => []
  | some ov =>
    if ov.length > 0 then
      let piecewiseVars := clampableVars.filter (fun v =>
        shouldUsePiecewiseClamp v options && !shouldUseProportion v options
        && !shouldUseViewportRelative v options && hasModeVariance v modes options
        && v.resolvedType == VarType.FLOAT)
      if piecewiseVars.length > 0 && modes.length ≥ 3 then
        if isDesktopFirst then
          ["", "/* Piecewise clamp: Laptop → Tablet segment */",
           "@media (max-width: " ++ toString ((modes.getD 0 dummyBP).breakpointPx - 1) ++ "px) \x7b",
           "  :root \x7b"] ++
          piecewiseSegLines piecewiseVars (modes.getD 1 dummyBP) (modes.getD 2 dummyBP) ++
          ["  \x7d", "\x7d"] ++
          (if modes.length ≥ 4 then
            ["", "/* Piecewise clamp: Tablet → Mobile segment */",
             "@media (max-width: " ++ toString ((modes.getD 1 dummyBP).breakpointPx - 1) ++ "px) \x7b",
             "  :root \x7b"] ++
            piecewiseSegLines piecewiseVars (modes.getD 2 dummyBP) (modes.getD 3 dummyBP) ++
            ["  \x7d", "\x7d"]
          else [])
        else
          (if modes.length ≥ 4 then
            ["", "/* Piecewise clamp: Tablet → Laptop segment */",
             "@media (min-width: " ++ toString (modes.getD 2 dummyBP).breakpointPx ++ "px) \x7b",
             "  :root \x7b"] ++
            piecewiseSegLines piecewiseVars (modes.getD 2 dummyBP) (modes.getD 1 dummyBP) ++
            ["  \x7d", "\x7d"]
          else []) ++
          ["", "/* Piecewise clamp: Laptop → Desktop segment */",
           "@media (min-width: " ++ toString (modes.getD 1 dummyBP).breakpointPx ++ "px) \x7b",
           "  :root \x7b"] ++
          piecewiseSegLines piecewiseVars (modes.getD 1 dummyBP) (modes.getD 0 dummyBP) ++
          ["  \x7d", "\x7d"]
      else []
    else []

def fallbackDecls (cwv : List VariableInfo) (mode : BPMode)
    (options : ExportOptions) : List String :=
  cwv.foldl (fun a v =>
    match v.valuesByMode.lookup mode.modeId with
    | none => a
    | some val =>
      match formatCSSValue val v options with
      | none => a
      | some cv => a ++ ["      " ++ v.cssName ++ ": " ++ cv ++ ";"]) []

def fallbackSection (modes : List BPMode) (clampableVars : List VariableInfo)
    (options : ExportOptions) (isDesktopFirst : Bool) : List String :=
  if options.includeLegacyFallbacks then
    let cwv := clampableVars.filter (fun v =>
      hasModeVariance v modes options && !shouldUseProportion v options
      && !shouldUseViewportRelative v options)
    if cwv.length > 0 then
      ["", "/* Fallback for older browsers */",
       "@supports not (width: clamp(1px, 1vw, 2px)) \x7b"] ++
      (if isDesktopFirst then
        (modes.zip modes.tail).foldl (fun acc pm =>
          acc ++
          ["  @media (max-width: " ++ toString (pm.1.breakpointPx - 1) ++ "px) \x7b",
           "    :root \x7b"] ++
          fallbackDecls cwv pm.2 options ++
          ["    \x7d", "  \x7d"]) []
      else
        ((modes.take (modes.length - 1)).reverse).foldl (fun acc mode =>
          acc ++
          ["  @media (min-width: " ++ toString mode.breakpointPx ++ "px) \x7b",
           "    :root \x7b"] ++
          fallbackDecls cwv mode options ++
          ["    \x7d", "  \x7d"]) []) ++
      ["\x7d"]
    else []
  else []

def generateFluidCSS (modes : List BPMode) (vars : List VariableInfo)
    (options : ExportOptions) (outputtedCSSNames : List String) :
    List String × List String :=
  let isDesktopFirst := options.breakpointDirection != BreakpointDirection.mobileFirst
  let defaultMode := if isDesktopFirst then modes.headD dummyBP else modes.getLastD dummyBP
  let largestMode := modes.headD dummyBP
  let part := vars.foldl (fluidPartitionStep largestMode modes options outputtedCSSNames) ([], [])
  let clampableVars := part.1
  let mediaQueryVars := part.2
  let pRoot := clampableVars.foldl (fluidRootStep modes defaultMode options) ([], outputtedCSSNames)
  let pMq := mediaQueryVars.foldl (fluidMqDefaultStep defaultMode options) pRoot
  ([":root \x7b"] ++ pMq.1 ++ ["\x7d"] ++
   fluidMediaQueryLines modes mediaQueryVars options isDesktopFirst ++
   piecewiseSection modes clampableVars options isDesktopFirst ++
   fallbackSection modes clampableVars options isDesktopFirst,
   pMq.2)

/-! ## Fixed (stepped) emission -/

def steppedNormalEmit (options : ExportOptions)
    (acc : List String × List String) (varInfo : VariableInfo)
    (value : ProcessedValue) : List String × List String :=
  match formatCSSValue value varInfo options with
  | none => acc
  | some cssValue =>
    (acc.1 ++ idComment options varInfo ++
      ["  " ++ varInfo.cssName ++ ": " ++ cssValue ++ ";"],
     addName acc.2 varInfo.cssName)

def steppedRootStep (defaultModeId : String) (options : ExportOptions)
    (acc : List String × List String) (varInfo : VariableInfo) :
    List String × List String :=
  match varInfo.valuesByMode.lookup defaultModeId with
  | none => acc
  | some value =>
    if shouldSkipVariable varInfo value acc.2 then acc
    else if shouldUseProportion varInfo options then
      match getProportionColumnCount varInfo with
      | some c =>
        (acc.1 ++ idComment options varInfo ++
          ["  /* Proportion: " ++ toString c ++ "/12 columns (flex/grid-ready) */",
           "  " ++ varInfo.cssName ++ ": " ++ toString c ++ ";",
           "  " ++ varInfo.cssName ++ "--fr: " ++ toString c ++ "fr;"],
         addName acc.2 varInfo.cssName)
      | none => steppedNormalEmit options acc varInfo value
    else steppedNormalEmit options acc varInfo value

def steppedMediaDecls (vars : List VariableInfo) (mode : BPMode)
    (options : ExportOptions) (set : List String) : List String :=
  vars.foldl (fun acc varInfo =>
    if shouldUseProportion varInfo options then acc
    else
      match varInfo.valuesByMode.lookup mode.modeId with
      | none => acc
      | some value =>
        if !set.contains varInfo.cssName then acc
        else
          match formatCSSValue value varInfo options with
          | none => acc
          | some cssValue =>
            acc ++ ["    " ++ varInfo.cssName ++ ": " ++ cssValue ++ ";"]) []

def generateSteppedCSS (modes : List BPMode) (vars : List VariableInfo)
    (options : ExportOptions) (outputtedCSSNames : List String) :
    List String × List String :=
  let isDesktopFirst := options.breakpointDirection != BreakpointDirection.mobileFirst
  let defaultMode := if isDesktopFirst then modes.headD dummyBP else modes.getLastD dummyBP
  let p := vars.foldl (steppedRootStep defaultMode.modeId options) ([], outputtedCSSNames)
  let set' := p.2
  let mediaLines :=
    if isDesktopFirst then
      (modes.zip modes.tail).foldl (fun acc pm =>
        acc ++
        ["", "@media (max-width: " ++ toString (pm.1.breakpointPx - 1) ++ "px) \x7b",
         "  :root \x7b"] ++
        steppedMediaDecls vars pm.2 options set' ++
        ["  \x7d", "\x7d"]) []
    else
      ((modes.take (modes.length - 1)).reverse).foldl (fun acc mode =>
        acc ++
        ["", "@media (min-width: " ++ toString mode.breakpointPx ++ "px) \x7b",
         "  :root \x7b"] ++
        steppedMediaDecls vars mode options set' ++
        ["  \x7d", "\x7d"]) []
  ([":root \x7b"] ++ p.1 ++ ["\x7d"] ++ mediaLines, set')

/-! ## Strategy dispatch and whole-output assembly -/

def generateBreakpointCSS (collection : CollectionRec) (vars : List VariableInfo)
    (options : ExportOptions) (outputtedCSSNames : List String) :
    List String × List String :=
  let sortedModes := sortS (fun a b => decide (b.breakpointPx ≤ a.breakpointPx))
    (collection.modes.map (fun m =>
      BPMode.mk m.modeId m.name (((detectBreakpoint m.name).getD 0 : ℕ) : ℤ)))
  if options.outputMode == OutputMode.fluid && sortedModes.length ≥ 2 then
    generateFluidCSS sortedModes vars options outputtedCSSNames
  else
    generateSteppedCSS sortedModes vars options outputtedCSSNames

/-- The `layerOrder` comparator helper nested in `generateCSSOutput`. -/
def layerOrder (name : String) : ℕ :=
  let lower := name.toLower
  if strContains lower "foundation" then 0
  else if strContains lower "alias" && !strContains lower "extended" then 1
  else if strContains lower "extended" then 2
  else if strContains lower "mapping" then 3
  else 4

/-- The collection comparator: domain (string order; `localeCompare` on the
lowercase ASCII domains produced by `parseCollectionName` is plain
lexicographic order), then `layerOrder`. -/
def collLe (a b : CollectionRec) : Bool :=
  let da := (parseCollectionName a.name).domain
  let db := (parseCollectionName b.name).domain
  if da = db then decide (layerOrder a.name ≤ layerOrder b.name)
  else decide (da < db)

/-- `groupByCollection` builds insertion-ordered per-collection lists;
equivalently, a filter on the (order-preserving) variable list. -/
def groupFor (vars : List VariableInfo) (cid : String) : List VariableInfo :=
  vars.filter (fun v => v.collectionId == cid)

def sortCollections (collections : List CollectionRec)
    (vars : List VariableInfo) : List CollectionRec :=
  sortS collLe (collections.filter (fun c =>
    !c.remote && (groupFor vars c.id).length > 0))

/-- The per-collection `ModeInfo` construction of `generateCSSOutput`. -/
def modeInfosFor (modes : List ModeRec) : List ModeInfo :=
  modes.map (fun m => ModeInfo.mk m.modeId m.name (detectBreakpoint m.name))

def collectionSection (collection : CollectionRec) (vars : List VariableInfo)
    (options : ExportOptions) (set : List String) : List String × List String :=
  let group := groupFor vars collection.id
  if group.length = 0 then ([], set)
  else
    let modeType := detectModeType (modeInfosFor collection.modes)
    let hdr :=
      ["/* --------------------------------------------------------------------------",
       "   " ++ collection.name.toUpper,
       "   -------------------------------------------------------------------------- */",
       ""]
    let body :=
      match modeType with
      | .breakpoint => generateBreakpointCSS collection group options set
      | .theme => generateThemeCSS collection group options set
      | .single => generateSingleModeCSS collection group options set
    (hdr ++ body.1 ++ [""], body.2)

def eqRuler : String := String.mk (List.replicate 74 (Char.ofNat 61))

def cssHeader (options : ExportOptions) (timestamp : String) : List String :=
  ["/* " ++ eqRuler,
   "   DESIGN TOKENS — Generated from Figma Variables"] ++
  (if options.includeTimestamp then ["   Date: " ++ timestamp] else []) ++
  ["   Mode: " ++ (if options.outputMode == OutputMode.fluid then "Fluid (clamp)" else "Fixed (per-breakpoint)"),
   "   Direction: " ++ (if options.breakpointDirection == BreakpointDirection.mobileFirst then "Mobile-first (min-width)" else "Desktop-first (max-width)"),
   "   " ++ eqRuler ++ " */",
   ""]

def generateCSSOutputLines (collections : List CollectionRec)
    (vars : List VariableInfo) (options : ExportOptions)
    (timestamp : String) : List String :=
  ((sortCollections collections vars).foldl (fun acc c =>
      let s := collectionSection c vars options acc.2
      (acc.1 ++ s.1, s.2))
    (cssHeader options timestamp, ([] : List String))).1

def generateCSSOutput (collections : List CollectionRec)
    (vars : List VariableInfo) (options : ExportOptions)
    (timestamp : String) : String :=
  String.intercalate "\n" (generateCSSOutputLines collections vars options timestamp)

/-! ## Alias resolution (second pass of `handleGenerateCSS`) -/

/-- The `variableMap` lookup: `Map.set` in insertion order, so on duplicate
ids the last write wins. -/
def lastById (vars : List VariableInfo) (id : String) : Option VariableInfo :=
  (vars.filter (fun w => w.id == id)).getLast?

def resolveValue (lookup : String → Option VariableInfo) (varName : String)
    (value : ProcessedValue) : ProcessedValue × List String :=
  if value.isAlias then
    match value.aliasId with
    | some aid =>
      if aid = "" then (value, [])
      else
        match lookup aid with
        | some target => ({ value with aliasName := some target.cssName }, [])
        | none => (value, ["Broken alias: " ++ varName ++ " references unknown variable"])
    | none => (value, [])
  else (value, [])

def resolveStep (lookup : String → Option VariableInfo) (nm : String)
    (acc : List (String × ProcessedValue) × List String)
    (p : String × ProcessedValue) :
    List (String × ProcessedValue) × List String :=
  let r := resolveValue lookup nm p.2
  (acc.1 ++ [(p.1, r.1)], acc.2 ++ r.2)

def resolveVariable (lookup : String → Option VariableInfo)
    (vi : VariableInfo) : VariableInfo × List String :=
  let z := vi.valuesByMode.foldl (resolveStep lookup vi.name) ([], [])
  ({ vi with valuesByMode := z.1 }, z.2)

def resolveVarsStep (lookup : String → Option VariableInfo)
    (acc : List VariableInfo × List String) (vi : VariableInfo) :
    List VariableInfo × List String :=
  let r := resolveVariable lookup vi
  (acc.1 ++ [r.1], acc.2 ++ r.2)

def resolveAliasNames (vars : List VariableInfo) :
    List VariableInfo × List String :=
  vars.foldl (resolveVarsStep (lastById vars)) ([], [])

/-- The generation pipeline downstream of graph construction: resolve alias
names, then emit (returns the output lines and the diagnostics). -/
def generateCSS (collections : List CollectionRec) (vars : List VariableInfo)
    (options : ExportOptions) (timestamp : String) :
    List String × List String :=
  let r := resolveAliasNames vars
  (generateCSSOutputLines collections r.1 options timestamp, r.2)

/-! ## Scenario constants and spec-side definitions -/

/-! ## C1: linear clamp derivation -/

/-- The modes, variable and options of the worked example in the claim:
Desktop = 1680px with value 32, Mobile = 480px with value 25.6. -/
def c1Modes : List BPMode := [⟨"mD", "Desktop", 1680⟩, ⟨"mM", "Mobile", 480⟩]

def c1Var : VariableInfo :=
  { id := "v1", name := "font-size", description := "", collectionId := "c1",
    collectionName := "Typo - 1. Foundations", domain := "typo",
    layerType := .foundations, resolvedType := .FLOAT,
    valuesByMode := [("mD", ⟨false, none, none, some (.num 32)⟩),
                     ("mM", ⟨false, none, none, some (.num (25.6 : ℚ))⟩)],
    isAlias := false, cssName := "--typo-font-size" }

def c1Opts : ExportOptions :=
  { outputMode := .fluid, breakpointDirection := .desktopFirst,
    aliasMode := .preserved, darkModeOutput := .both,
    includeTimestamp := false, includeIds := false, colorFormat := .hex,
    includeLegacyFallbacks := false, viewportRelativeOverrides := none,
    nonLinearOverrides := none }

/-- The boundary condition to the left of an occurrence: the text before it
is empty or ends in a separator. -/
def preBoundary (pre : List Char) : Prop :=
  pre = [] ∨ ∃ c pre', pre = pre' ++ [c] ∧ boundaryChar c = true

/-- The boundary condition to the right of an occurrence: the text after it
is empty or starts with a separator. -/
def postBoundary (post : List Char) : Prop :=
  post = [] ∨ ∃ c post', post = c :: post' ∧ boundaryChar c = true

/-- The layer rank the claim assigns to each derived `layerType`:
foundations(0) < aliases(1) < aliases-extended(2) < mappings(3) < other(4).
Stated from the claim, to be compared with the comparator's `layerOrder`. -/
def layerTypeRank : LayerType → ℕ
  | .foundations => 0
  | .aliases => 1
  | .aliasesExtended => 2
  | .mappings => 3
  | .other => 4

/-! ## C3: cross-collection dedup -/

/-- A standard options bundle used by the concrete generation scenarios. -/
def optsStd : ExportOptions :=
  { outputMode := .fluid, breakpointDirection := .desktopFirst,
    aliasMode := .preserved, darkModeOutput := .both,
    includeTimestamp := false, includeIds := false, colorFormat := .hex,
    includeLegacyFallbacks := false, viewportRelativeOverrides := none,
    nonLinearOverrides := none }

/-- A single-mode foundations collection of the `space` domain. -/
def c3CollF : CollectionRec :=
  ⟨"c1", "Space - 1. Foundations", false, [⟨"m1", "Mode 1"⟩]⟩

/-- A light/dark (theme-mode) aliases collection of the `space` domain. -/
def c3CollA : CollectionRec :=
  ⟨"c2", "Space - Aliases", false, [⟨"ml", "Light"⟩, ⟨"md", "Dark"⟩]⟩

/-- The foundations variable: literal 16 in its only mode. -/
def c3VarF : VariableInfo :=
  { id := "vb", name := "fixed-1", description := "", collectionId := "c1",
    collectionName := "Space - 1. Foundations", domain := "space",
    layerType := .foundations, resolvedType := .FLOAT,
    valuesByMode := [("m1", ⟨false, none, none, some (.num 16)⟩)],
    isAlias := false, cssName := generateCSSName "fixed-1" "space" .foundations }

/-- The aliases variable with the same identifier: literals 1 (light) and
2 (dark). -/
def c3VarA : VariableInfo :=
  { id := "va", name := "fixed-1", description := "", collectionId := "c2",
    collectionName := "Space - Aliases", domain := "space",
    layerType := .aliases, resolvedType := .FLOAT,
    valuesByMode := [("ml", ⟨false, none, none, some (.num 1)⟩),
                     ("md", ⟨false, none, none, some (.num 2)⟩)],
    isAlias := false, cssName := generateCSSName "fixed-1" "space" .aliases }

/-! ## C4: self-aliased variables -/

/-- A foundations variable that already emits `--space-x`. -/
def c4VarB : VariableInfo :=
  { id := "vb", name := "x", description := "", collectionId := "c1",
    collectionName := "Space - 1. Foundations", domain := "space",
    layerType := .foundations, resolvedType := .FLOAT,
    valuesByMode := [("m1", ⟨false, none, none, some (.num 16)⟩)],
    isAlias := false, cssName := generateCSSName "x" "space" .foundations }

/-- A theme-collection variable aliasing itself (`aliasId` = own id, so the
resolution pass fills `aliasName` with its own cssName `--space-x`). -/
def c4VarS : VariableInfo :=
  { id := "va", name := "x", description := "", collectionId := "c2",
    collectionName := "Space - Aliases", domain := "space",
    layerType := .aliases, resolvedType := .FLOAT,
    valuesByMode := [("ml", ⟨true, some "va", none, none⟩),
                     ("md", ⟨true, some "va", none, none⟩)],
    isAlias := true, cssName := generateCSSName "x" "space" .aliases }

/-- A minimal self-aliased variable for the amended-claim witness. -/
def c4VarW : VariableInfo :=
  { id := "x", name := "x", description := "", collectionId := "c",
    collectionName := "C", domain := "d",
    layerType := .aliases, resolvedType := .FLOAT,
    valuesByMode := [("m", ⟨true, some "x", some "--x", none⟩)],
    isAlias := true, cssName := "--x" }

/-- A variable with a dangling alias for the C9 witness. -/
def c9Var : VariableInfo :=
  { id := "v9", name := "broken/one", description := "", collectionId := "c",
    collectionName := "C", domain := "d",
    layerType := .aliases, resolvedType := .FLOAT,
    valuesByMode := [("m", ⟨true, some "zz", none, none⟩)],
    isAlias := true, cssName := "--d-broken-one" }

/-- Lines appended by emission loops are indented by two spaces. -/
def spacePrefixed (x : String) : Prop := ∃ r, x = "  " ++ r

/-- Export options selecting only `prefers-color-scheme` dark-mode output. -/
def optsPCS : ExportOptions :=
  { optsStd with darkModeOutput := .prefersColorScheme }

/-- A light/dark theme collection for the theme-emission scenarios. -/
def c7Coll : CollectionRec :=
  ⟨"c7", "Space - Aliases", false, [⟨"ml", "Light"⟩, ⟨"md", "Dark"⟩]⟩

/-- A variable with a light-mode value only: it is declared in the default
block (default mode is the light mode) but has no dark-mode entry. -/
def c7Var : VariableInfo :=
  { id := "v7", name := "t", description := "", collectionId := "c7",
    collectionName := "Space - Aliases", domain := "space",
    layerType := .aliases, resolvedType := .FLOAT,
    valuesByMode := [("ml", ⟨false, none, none, some (.num 1)⟩)],
    isAlias := false, cssName := "--t" }

/-- A variable with identical light and dark values (both format to `1px`). -/
def c7VarW : VariableInfo :=
  { id := "v7w", name := "u", description := "", collectionId := "c7",
    collectionName := "Space - Aliases", domain := "space",
    layerType := .aliases, resolvedType := .FLOAT,
    valuesByMode := [("ml", ⟨false, none, none, some (.num 1)⟩),
                     ("md", ⟨false, none, none, some (.num 1)⟩)],
    isAlias := false, cssName := "--u" }

/-! ## Helper lemmas -/

theorem mem_insertS (le : α → α → Bool) (x a : α) (l : List α) :
    a ∈ insertS le x l ↔ a = x ∨ a ∈ l := by
  induction l with
  | nil => simp [insertS]
  | cons y ys ih =>
    rw [insertS]
    by_cases h : le y x = true
    · rw [if_pos h]
      simp only [List.mem_cons, ih]
      tauto
    · rw [if_neg h]
      simp only [List.mem_cons]

theorem pairwise_insertS (le : α → α → Bool)
    (htrans : ∀ a b c, le a b = true → le b c = true → le a c = true)
    (htot : ∀ a b, le a b = true ∨ le b a = true) (x : α) (l : List α)
    (hl : l.Pairwise (fun a b => le a b = true)) :
    (insertS le x l).Pairwise (fun a b => le a b = true) := by
  induction l with
  | nil => simp [insertS]
  | cons y ys ih =>
    rcases List.pairwise_cons.mp hl with ⟨hy, hys⟩
    rw [insertS]
    by_cases h : le y x = true
    · rw [if_pos h]
      refine List.pairwise_cons.mpr ⟨?_, ih hys⟩
      intro a ha
      rcases (mem_insertS le x a ys).mp ha with h1 | h2
      · subst h1; exact h
      · exact hy a h2
    · rw [if_neg h]
      have hxy : le x y = true := by
        rcases htot x y with h' | h'
        · exact h'
        · exact absurd h' h
      refine List.pairwise_cons.mpr ⟨?_, hl⟩
      intro a ha
      rcases List.mem_cons.mp ha with h1 | h2
      · subst h1; exact hxy
      · exact htrans x y a hxy (hy a h2)

theorem pairwise_sortS (le : α → α → Bool)
    (htrans : ∀ a b c, le a b = true → le b c = true → le a c = true)
    (htot : ∀ a b, le a b = true ∨ le b a = true) (l : List α) :
    (sortS le l).Pairwise (fun a b => le a b = true) := by
  induction l with
  | nil => simp [sortS]
  | cons x xs ih => exact pairwise_insertS le htrans htot x _ ih


theorem find?_of_hit {α : Type} (f : α → Bool) (l₁ : List α) (e : α) (l₂ : List α)
    (hmiss : ∀ x ∈ l₁, f x = false) (hhit : f e = true) :
    (l₁ ++ e :: l₂).find? f = some e := by
  induction l₁ with
  | nil => simp [List.find?_cons, hhit]
  | cons a as ih =>
    have ha := hmiss a (by simp)
    simp only [List.cons_append, List.find?_cons, ha]
    exact ih (fun x hx => hmiss x (by simp [hx]))

/-- C1.  For a FLOAT variable whose two extreme breakpoint modes hold literal
numeric values, that is not viewport-relative, not in the unitless-equal
shortcut, with distinct extreme breakpoints, and whose rounded intercept is
non-negative, the fluid emitter derives `slope = (maxVal−minVal)/(maxPx−minPx)`
and `intercept = minVal − slope·minPx` and emits
`clamp(round(min,2)<u>, calc(round(intercept,2)<u> + round(slope·100,4)vw), round(max,2)<u>)`;
when the variable additionally has mode variance and is not selected for
proportion or piecewise treatment, this is the declaration the `:root` loop
emits; and in particular the Desktop=1680→32 / Mobile=480→25.6 example
produces exactly `clamp(25.6px, calc(23.04px + 0.5333vw), 32px)`. -/
theorem C1_linear_clamp :
    (∀ (modes : List BPMode) (varInfo : VariableInfo) (opts : ExportOptions)
       (value : ProcessedValue) (cssValue : String) (maxV minV : ℚ),
      ((varInfo.valuesByMode.lookup (modes.headD dummyBP).modeId).bind
          (fun v => v.resolved) = some (RVal.num maxV)) →
      ((varInfo.valuesByMode.lookup (modes.getLastD dummyBP).modeId).bind
          (fun v => v.resolved) = some (RVal.num minV)) →
      shouldUseViewportRelative varInfo opts = false →
      ¬(isUnitless varInfo = true ∧ maxV = minV) →
      ((modes.headD dummyBP).breakpointPx : ℚ) ≠ ((modes.getLastD dummyBP).breakpointPx : ℚ) →
      round (minV - (maxV - minV) /
        (((modes.headD dummyBP).breakpointPx : ℚ) - ((modes.getLastD dummyBP).breakpointPx : ℚ)) *
          ((modes.getLastD dummyBP).breakpointPx : ℚ)) 2 ≥ 0 →
      hasModeVariance varInfo modes opts = true →
      varInfo.resolvedType = VarType.FLOAT →
      value.isAlias = false →
      shouldUseProportion varInfo opts = false →
      shouldUsePiecewiseClamp varInfo opts = false →
      (generateFluidValue modes varInfo opts =
        ⟨"clamp(" ++
            fmtQ (round (min minV maxV) 2) ++ (if isUnitless varInfo then "" else "px") ++
            ", calc(" ++
            fmtQ (round (minV - (maxV - minV) /
              (((modes.headD dummyBP).breakpointPx : ℚ) - ((modes.getLastD dummyBP).breakpointPx : ℚ)) *
                ((modes.getLastD dummyBP).breakpointPx : ℚ)) 2) ++
            (if isUnitless varInfo then "" else "px") ++ " + " ++
            fmtQ (round ((maxV - minV) /
              (((modes.headD dummyBP).breakpointPx : ℚ) - ((modes.getLastD dummyBP).breakpointPx : ℚ)) * 100) 4) ++
            "vw" ++ "), " ++
            fmtQ (round (max minV maxV) 2) ++ (if isUnitless varInfo then "" else "px") ++ ")",
          false⟩ ∧
       fluidRootBody modes opts varInfo value cssValue =
        ["  " ++ varInfo.cssName ++ ": " ++
          (generateFluidValue modes varInfo opts).value ++ ";"])) ∧
    generateFluidValue c1Modes c1Var c1Opts =
      ⟨"clamp(25.6px, calc(23.04px + 0.5333vw), 32px)", false⟩ := by
  constructor
  · intro modes varInfo opts value cssValue maxV minV hmax hmin hvp hne hpx hint
      hvar hft hal hprop hpw
    have hbool : (isUnitless varInfo && (maxV == minV)) = false := by
      rcases h : isUnitless varInfo with _ | _
      · simp
      · rcases heq : (maxV == minV) with _ | _
        · simp
        · exact absurd ⟨h, by exact beq_iff_eq.mp heq⟩ hne
    have h1 : generateFluidValue modes varInfo opts =
        ⟨"clamp(" ++
            fmtQ (round (min minV maxV) 2) ++ (if isUnitless varInfo then "" else "px") ++
            ", calc(" ++
            fmtQ (round (minV - (maxV - minV) /
              (((modes.headD dummyBP).breakpointPx : ℚ) - ((modes.getLastD dummyBP).breakpointPx : ℚ)) *
                ((modes.getLastD dummyBP).breakpointPx : ℚ)) 2) ++
            (if isUnitless varInfo then "" else "px") ++ " + " ++
            fmtQ (round ((maxV - minV) /
              (((modes.headD dummyBP).breakpointPx : ℚ) - ((modes.getLastD dummyBP).breakpointPx : ℚ)) * 100) 4) ++
            "vw" ++ "), " ++
            fmtQ (round (max minV maxV) 2) ++ (if isUnitless varInfo then "" else "px") ++ ")",
          false⟩ := by
      unfold generateFluidValue
      simp only [hmax, hmin, hvp, hbool, Bool.false_eq_true, if_false]
      rw [if_pos hint]
      simp only [String.append_assoc]
    refine ⟨h1, ?_⟩
    simp only [fluidRootBody, hvar, hft, hal, hprop, hpw, h1]
    simp
  · with_unfolding_all decide

theorem C1_linear_clamp_witness :
    fluidRootBody c1Modes c1Opts c1Var ⟨false, none, none, some (.num 32)⟩ "32px" =
      ["  " ++ c1Var.cssName ++ ": " ++
        (generateFluidValue c1Modes c1Var c1Opts).value ++ ";"] :=
  (C1_linear_clamp.1 c1Modes c1Var c1Opts ⟨false, none, none, some (.num 32)⟩
    "32px" 32 (25.6 : ℚ)
    (by with_unfolding_all decide) (by with_unfolding_all decide)
    (by with_unfolding_all decide) (by with_unfolding_all decide)
    (by with_unfolding_all decide) (by with_unfolding_all decide)
    (by with_unfolding_all decide) (by with_unfolding_all decide)
    (by with_unfolding_all decide) (by with_unfolding_all decide)
    (by with_unfolding_all decide)).2

/-! ## C2: mode-type detection invariant -/

theorem modeInfosFor_length (modes : List ModeRec) :
    (modeInfosFor modes).length = modes.length := by
  simp [modeInfosFor]

theorem modeInfosFor_all (modes : List ModeRec) :
    ((modeInfosFor modes).all fun m => m.breakpointPx.isSome) =
      modes.all (fun m => (detectBreakpoint m.name).isSome) := by
  induction modes with
  | nil => rfl
  | cons a as ih =>
    simp only [modeInfosFor, List.map_cons, List.all_cons] at ih ⊢
    rw [ih]

theorem modeInfosFor_any (modes : List ModeRec) :
    ((modeInfosFor modes).any fun m =>
        THEME_MODES.any fun k => strContains m.name.toLower k) =
      modes.any (fun m => THEME_MODES.any fun k => strContains m.name.toLower k) := by
  induction modes with
  | nil => rfl
  | cons a as ih =>
    simp only [modeInfosFor, List.map_cons, List.any_cons] at ih ⊢
    rw [ih]

/-- C2.  Characterization of `detectModeType` over the `ModeInfo` list that
`generateCSSOutput` derives from a collection's modes: `single` when there is
exactly one mode; otherwise `breakpoint` exactly when every mode name
resolves to a known breakpoint width; otherwise `theme` exactly when some
mode name contains a theme keyword ("light"/"dark"); `single` in every
remaining case. -/
theorem C2_mode_type_characterization (modes : List ModeRec) :
    (detectModeType (modeInfosFor modes) = ModeType.breakpoint ↔
      modes.length ≠ 1 ∧ ∀ m ∈ modes, (detectBreakpoint m.name).isSome = true) ∧
    (detectModeType (modeInfosFor modes) = ModeType.theme ↔
      modes.length ≠ 1 ∧ ¬(∀ m ∈ modes, (detectBreakpoint m.name).isSome = true) ∧
      ∃ m ∈ modes, ∃ k ∈ THEME_MODES, strContains m.name.toLower k = true) ∧
    (detectModeType (modeInfosFor modes) = ModeType.single ↔
      modes.length = 1 ∨ (¬(∀ m ∈ modes, (detectBreakpoint m.name).isSome = true) ∧
      ¬∃ m ∈ modes, ∃ k ∈ THEME_MODES, strContains m.name.toLower k = true)) := by
  have hlen := modeInfosFor_length modes
  have hallb := modeInfosFor_all modes
  have hanyb := modeInfosFor_any modes
  by_cases h1 : modes.length = 1
  · have hdet : detectModeType (modeInfosFor modes) = ModeType.single := by
      unfold detectModeType
      rw [hlen, if_pos h1]
    rw [hdet]
    refine ⟨iff_of_false (by simp) ?_, iff_of_false (by simp) ?_,
      iff_of_true rfl (Or.inl h1)⟩
    · rintro ⟨hne, -⟩; exact hne h1
    · rintro ⟨hne, -⟩; exact hne h1
  · by_cases h2 : modes.all (fun m => (detectBreakpoint m.name).isSome) = true
    · have h2' : ∀ m ∈ modes, (detectBreakpoint m.name).isSome = true :=
        List.all_eq_true.mp h2
      have hdet : detectModeType (modeInfosFor modes) = ModeType.breakpoint := by
        unfold detectModeType
        rw [hlen, if_neg h1, hallb, if_pos h2]
      rw [hdet]
      refine ⟨iff_of_true rfl ⟨h1, h2'⟩, iff_of_false (by simp) ?_,
        iff_of_false (by simp) ?_⟩
      · rintro ⟨-, hno, -⟩; exact hno h2'
      · rintro (h | ⟨hno, -⟩)
        · exact h1 h
        · exact hno h2'
    · have h2' : ¬∀ m ∈ modes, (detectBreakpoint m.name).isSome = true := by
        intro h
        exact h2 (List.all_eq_true.mpr h)
      by_cases h3 : modes.any (fun m =>
          THEME_MODES.any (fun k => strContains m.name.toLower k)) = true
      · have h3' : ∃ m ∈ modes, ∃ k ∈ THEME_MODES, strContains m.name.toLower k = true := by
          simpa [List.any_eq_true] using h3
        have hdet : detectModeType (modeInfosFor modes) = ModeType.theme := by
          unfold detectModeType
          rw [hlen, if_neg h1, hallb, if_neg (by simpa using h2), hanyb, if_pos h3]
        rw [hdet]
        refine ⟨iff_of_false (by simp) ?_, iff_of_true rfl ⟨h1, h2', h3'⟩,
          iff_of_false (by simp) ?_⟩
        · rintro ⟨-, hall⟩; exact h2' hall
        · rintro (h | ⟨-, hno⟩)
          · exact h1 h
          · exact hno h3'
      · have h3' : ¬∃ m ∈ modes, ∃ k ∈ THEME_MODES, strContains m.name.toLower k = true := by
          intro h
          exact h3 (by simpa [List.any_eq_true] using h)
        have hdet : detectModeType (modeInfosFor modes) = ModeType.single := by
          unfold detectModeType
          rw [hlen, if_neg h1, hallb, if_neg (by simpa using h2), hanyb,
            if_neg (by simpa using h3)]
        rw [hdet]
        refine ⟨iff_of_false (by simp) ?_, iff_of_false (by simp) ?_,
          iff_of_true rfl (Or.inr ⟨h2', h3'⟩)⟩
        · rintro ⟨-, hall⟩; exact h2' hall
        · rintro ⟨-, -, hex⟩; exact h3' hex

/-! ## C5: proportion name-to-column mapping -/

/-- `getProportionColumnCount` through a split of the pattern table: the
first entry whose pattern list hits wins. -/
theorem getProp_eq (v : VariableInfo)
    (hp : strContains v.name.toLower "proportion" = true)
    (hv : strContains v.name.toLower "viewport" = false)
    (l₁ : List (List String × ℕ)) (pe : List String × ℕ) (l₂ : List (List String × ℕ))
    (hsplit : PROPORTION_COLUMNS = l₁ ++ pe :: l₂)
    (hmiss : ∀ x ∈ l₁, x.1.any (fun p => strContains v.name.toLower p) = false)
    (hhit : pe.1.any (fun p => strContains v.name.toLower p) = true) :
    getProportionColumnCount v = some pe.2 := by
  unfold getProportionColumnCount
  simp only [hp, hv, Bool.not_true, Bool.false_eq_true, if_false]
  rw [hsplit, find?_of_hit _ l₁ pe l₂ hmiss hhit]
  rfl

/-- C5.  The proportion mapping is a pure function, total over its known
vocabulary: given a name containing "proportion" and not "viewport",
"three-quarters" maps to 9 (even when — inevitably — "quarter" also occurs
as a substring: longest-pattern-first), "two-thirds" to 8, "whole" to 12,
"half" to 6, "third" to 4 and "quarter" to 3, where for the shorter words
the name must not contain any earlier (longer) pattern of the table. -/
theorem C5_proportion_mapping (v : VariableInfo)
    (hp : strContains v.name.toLower "proportion" = true)
    (hv : strContains v.name.toLower "viewport" = false) :
    (strContains v.name.toLower "three-quarters" = true →
      getProportionColumnCount v = some 9) ∧
    (strContains v.name.toLower "three-quarters" = true →
      strContains v.name.toLower "quarter" = true →
      getProportionColumnCount v = some 9) ∧
    (strContains v.name.toLower "two-thirds" = true →
      (∀ p ∈ ["three-quarters", "three quarters", "threequarters",
              "three-quarter", "three quarter", "threequarter"],
        strContains v.name.toLower p = false) →
      getProportionColumnCount v = some 8) ∧
    (strContains v.name.toLower "whole" = true →
      (∀ p ∈ ["three-quarters", "three quarters", "threequarters",
              "three-quarter", "three quarter", "threequarter"],
        strContains v.name.toLower p = false) →
      (∀ p ∈ ["two-thirds", "two thirds", "twothirds",
              "two-third", "two third", "twothird"],
        strContains v.name.toLower p = false) →
      strContains v.name.toLower "quarter" = false →
      getProportionColumnCount v = some 12) ∧
    (strContains v.name.toLower "half" = true →
      (∀ p ∈ ["three-quarters", "three quarters", "threequarters",
              "three-quarter", "three quarter", "threequarter"],
        strContains v.name.toLower p = false) →
      (∀ p ∈ ["two-thirds", "two thirds", "twothirds",
              "two-third", "two third", "twothird"],
        strContains v.name.toLower p = false) →
      strContains v.name.toLower "quarter" = false →
      strContains v.name.toLower "whole" = false →
      strContains v.name.toLower "third" = false →
      getProportionColumnCount v = some 6) ∧
    (strContains v.name.toLower "third" = true →
      (∀ p ∈ ["three-quarters", "three quarters", "threequarters",
              "three-quarter", "three quarter", "threequarter"],
        strContains v.name.toLower p = false) →
      (∀ p ∈ ["two-thirds", "two thirds", "twothirds",
              "two-third", "two third", "twothird"],
        strContains v.name.toLower p = false) →
      strContains v.name.toLower "quarter" = false →
      strContains v.name.toLower "whole" = false →
      getProportionColumnCount v = some 4) ∧
    (strContains v.name.toLower "quarter" = true →
      (∀ p ∈ ["three-quarters", "three quarters", "threequarters",
              "three-quarter", "three quarter", "threequarter"],
        strContains v.name.toLower p = false) →
      (∀ p ∈ ["two-thirds", "two thirds", "twothirds",
              "two-third", "two third", "twothird"],
        strContains v.name.toLower p = false) →
      getProportionColumnCount v = some 3) := by
  refine ⟨?_, ?_, ?_, ?_, ?_, ?_, ?_⟩
  · intro h
    exact getProp_eq v hp hv [] _ _ rfl (by simp)
      (by simp only [List.any_cons, h, Bool.true_or])
  · intro h _
    exact getProp_eq v hp hv [] _ _ rfl (by simp)
      (by simp only [List.any_cons, h, Bool.true_or])
  · intro h he0
    refine getProp_eq v hp hv [_] _ _ rfl ?_ ?_
    · intro x hx
      simp only [List.mem_singleton] at hx
      subst hx
      simp only [List.any_eq_false]
      intro p hpm
      simpa using he0 p hpm
    · simp only [List.any_cons, h, Bool.true_or]
  · intro h he0 he1 hq
    refine getProp_eq v hp hv [_, _, _] _ _ rfl ?_ ?_
    · intro x hx
      simp only [List.mem_cons, List.mem_singleton, List.not_mem_nil, or_false] at hx
      rcases hx with hx | hx | hx <;> subst hx
      · simp only [List.any_eq_false]
        intro p hpm
        simpa using he0 p hpm
      · simp only [List.any_eq_false]
        intro p hpm
        simpa using he1 p hpm
      · simp [hq]
    · simp only [List.any_cons, h, Bool.true_or]
  · intro h he0 he1 hq hw ht
    refine getProp_eq v hp hv [_, _, _, _, _] _ _ rfl ?_ ?_
    · intro x hx
      simp only [List.mem_cons, List.mem_singleton, List.not_mem_nil, or_false] at hx
      rcases hx with hx | hx | hx | hx | hx <;> subst hx
      · simp only [List.any_eq_false]
        intro p hpm
        simpa using he0 p hpm
      · simp only [List.any_eq_false]
        intro p hpm
        simpa using he1 p hpm
      · simp [hq]
      · simp [hw]
      · simp [ht]
    · simp only [List.any_cons, h, Bool.true_or]
  · intro h he0 he1 hq hw
    refine getProp_eq v hp hv [_, _, _, _] _ _ rfl ?_ ?_
    · intro x hx
      simp only [List.mem_cons, List.mem_singleton, List.not_mem_nil, or_false] at hx
      rcases hx with hx | hx | hx | hx <;> subst hx
      · simp only [List.any_eq_false]
        intro p hpm
        simpa using he0 p hpm
      · simp only [List.any_eq_false]
        intro p hpm
        simpa using he1 p hpm
      · simp [hq]
      · simp [hw]
    · simp only [List.any_cons, h, Bool.true_or]
  · intro h he0 he1
    refine getProp_eq v hp hv [_, _] _ _ rfl ?_ ?_
    · intro x hx
      simp only [List.mem_cons, List.mem_singleton, List.not_mem_nil, or_false] at hx
      rcases hx with hx | hx <;> subst hx
      · simp only [List.any_eq_false]
        intro p hpm
        simpa using he0 p hpm
      · simp only [List.any_eq_false]
        intro p hpm
        simpa using he1 p hpm
    · simp only [List.any_cons, h, Bool.true_or]

/-- C5 witness: the canonical vocabulary names evaluate as mapped. -/
theorem C5_proportion_mapping_witness :
    getProportionColumnCount
      { id := "", name := "proportions/three-quarters", description := "",
        collectionId := "", collectionName := "", domain := "",
        layerType := .foundations, resolvedType := .FLOAT,
        valuesByMode := [], isAlias := false, cssName := "" } = some 9 ∧
    getProportionColumnCount
      { id := "", name := "proportions/half", description := "",
        collectionId := "", collectionName := "", domain := "",
        layerType := .foundations, resolvedType := .FLOAT,
        valuesByMode := [], isAlias := false, cssName := "" } = some 6 :=
  ⟨(C5_proportion_mapping _ (by with_unfolding_all decide)
      (by with_unfolding_all decide)).1 (by with_unfolding_all decide),
   ((C5_proportion_mapping _ (by with_unfolding_all decide)
      (by with_unfolding_all decide)).2.2.2.2.1 (by with_unfolding_all decide)
     (by with_unfolding_all decide) (by with_unfolding_all decide)
     (by with_unfolding_all decide) (by with_unfolding_all decide)
     (by with_unfolding_all decide))⟩

/-! ## C8: unitless classifier and segment-boundary matching -/

theorem startsWithL_iff (p s : List Char) :
    startsWithL p s = true ↔ ∃ t, s = p ++ t := by
  induction p generalizing s with
  | nil => simp [startsWithL]
  | cons a as ih =>
    cases s with
    | nil => simp [startsWithL]
    | cons b bs =>
      simp only [startsWithL, Bool.and_eq_true, beq_iff_eq, ih, List.cons_append,
        List.cons.injEq]
      constructor
      · rintro ⟨rfl, t, rfl⟩
        exact ⟨t, rfl, rfl⟩
      · rintro ⟨t, rfl, rfl⟩
        exact ⟨rfl, t, rfl⟩

/-- `getD` just past a prefix reads the head of the remainder. -/
theorem getD_append_len (l r : List Char) (d : Char) :
    (l ++ r).getD l.length d = r.headD d := by
  rw [List.getD_eq_getElem?_getD, List.getElem?_append_right (le_refl _)]
  simp only [Nat.sub_self]
  cases r <;> simp

theorem segmentAt_iff (td kd : List Char) (i : ℕ) (hi : i ≤ td.length) :
    segmentAt td kd i = true ↔
      ∃ post, td = td.take i ++ kd ++ post ∧
        preBoundary (td.take i) ∧ postBoundary post := by
  have hPl : (td.take i).length = i := by
    rw [List.length_take]
    omega
  unfold segmentAt
  simp only [Bool.and_eq_true, Bool.or_eq_true, decide_eq_true_eq, startsWithL_iff]
  constructor
  · rintro ⟨⟨⟨post, hpost⟩, hpre⟩, hafter⟩
    have hdec : td = td.take i ++ kd ++ post := by
      have h0 := (List.take_append_drop i td).symm
      rw [hpost] at h0
      rw [List.append_assoc]
      exact h0
    have hlen : td.length = i + (kd.length + post.length) := by
      have := congrArg List.length hdec
      simpa [hPl, Nat.add_assoc] using this
    refine ⟨post, hdec, ?_, ?_⟩
    · by_cases h0 : i = 0
      · left
        rw [h0, List.take_zero]
      · right
        have hi1 : i - 1 < td.length := by omega
        refine ⟨td.getD (i - 1) ' ', td.take (i - 1), ?_, ?_⟩
        · have hsucc : td.take i = td.take (i - 1) ++ td[i - 1]?.toList := by
            conv_lhs => rw [show i = (i - 1) + 1 by omega]
            exact List.take_succ
          rw [hsucc, List.getElem?_eq_getElem hi1]
          rw [List.getD_eq_getElem?_getD, List.getElem?_eq_getElem hi1]
          rfl
        · rcases hpre with h | h
          · exact absurd h h0
          · exact h
    · cases post with
      | nil => exact Or.inl rfl
      | cons c post' =>
        right
        refine ⟨c, post', rfl, ?_⟩
        have hkey : td.getD (i + kd.length) ' ' = c := by
          have hdec2 : td = (td.take i ++ kd) ++ (c :: post') := hdec
          have hl2 : (td.take i ++ kd).length = i + kd.length := by
            simp [hPl]
          conv_lhs => rw [hdec2, ← hl2]
          rw [getD_append_len]
          rfl
        rcases hafter with h | h
        · exfalso
          simp at hlen
          omega
        · rwa [hkey] at h
  · rintro ⟨post, hdec, hpre, hpost⟩
    have hlen : td.length = i + (kd.length + post.length) := by
      have := congrArg List.length hdec
      simpa [hPl, Nat.add_assoc] using this
    refine ⟨⟨⟨post, ?_⟩, ?_⟩, ?_⟩
    · have h2 := congrArg (List.drop i) hdec
      rw [List.append_assoc, List.drop_left' hPl] at h2
      exact h2
    · rcases hpre with h0 | ⟨c, pre', hsplit, hb⟩
      · left
        rw [h0] at hPl
        simpa using hPl.symm
      · right
        have hlenpre : pre'.length + 1 = i := by
          have := congrArg List.length hsplit
          rw [hPl] at this
          simpa using this.symm
        have hkey : td.getD (i - 1) ' ' = c := by
          have hdec2 : td = pre' ++ ([c] ++ (kd ++ post)) := by
            rw [hdec, hsplit]
            simp [List.append_assoc]
          conv_lhs => rw [hdec2, show i - 1 = pre'.length by omega]
          rw [getD_append_len]
          rfl
        rwa [hkey]
    · rcases hpost with h0 | ⟨c, post', hsplit, hb⟩
      · left
        rw [h0] at hlen
        simp at hlen
        omega
      · right
        have hkey : td.getD (i + kd.length) ' ' = c := by
          have hdec2 : td = (td.take i ++ kd) ++ (c :: post') := by
            rw [← hsplit]
            exact hdec
          have hl2 : (td.take i ++ kd).length = i + kd.length := by
            simp [hPl]
          conv_lhs => rw [hdec2, ← hl2]
          rw [getD_append_len]
          rfl
        rwa [hkey]

theorem matchesAsSegment_iff (t k : String) :
    matchesAsSegment t k = true ↔
      ∃ pre post : List Char, t.data = pre ++ k.data ++ post ∧
        preBoundary pre ∧ postBoundary post := by
  unfold matchesAsSegment
  rw [List.any_eq_true]
  have ht : t.length = t.data.length := rfl
  constructor
  · rintro ⟨i, hi, hseg⟩
    rw [List.mem_range] at hi
    have hile : i ≤ t.data.length := by omega
    obtain ⟨post, hdec, hpre, hpost⟩ := (segmentAt_iff t.data k.data i hile).mp hseg
    exact ⟨t.data.take i, post, hdec, hpre, hpost⟩
  · rintro ⟨pre, post, hdec, hpre, hpost⟩
    have hlen : t.data.length = pre.length + k.data.length + post.length := by
      rw [hdec]
      simp [Nat.add_assoc]
    refine ⟨pre.length, ?_, ?_⟩
    · rw [List.mem_range]
      omega
    · have hile : pre.length ≤ t.data.length := by omega
      rw [segmentAt_iff t.data k.data pre.length hile]
      have htake : t.data.take pre.length = pre := by
        rw [hdec, List.append_assoc, List.take_left]
      refine ⟨post, ?_, ?_, hpost⟩
      · rw [htake]
        exact hdec
      · rw [htake]
        exact hpre

/-- C8.  The unitless classifier returns true exactly when one of the fixed
keywords occurs in the lowercased variable name or cssName bounded on both
sides by `-`, `/`, `.`, a space, or a string edge (the segment-boundary
characterization of `matchesAsSegment`); in particular "order" occurring
only inside "border" is not a match. -/
theorem C8_unitless_segment_characterization :
    (∀ t k : String, matchesAsSegment t k = true ↔
       ∃ pre post : List Char, t.data = pre ++ k.data ++ post ∧
         preBoundary pre ∧ postBoundary post) ∧
    (∀ varInfo : VariableInfo, isUnitless varInfo = true ↔
       ∃ kw ∈ UNITLESS_KEYWORDS,
         (matchesAsSegment varInfo.name.toLower kw = true ∨
          matchesAsSegment varInfo.cssName.toLower kw = true)) ∧
    matchesAsSegment "border" "order" = false := by
  refine ⟨matchesAsSegment_iff, ?_, by with_unfolding_all decide⟩
  intro varInfo
  unfold isUnitless
  rw [List.any_eq_true]
  simp only [Bool.or_eq_true]

/-! ## C6: collection ordering and layer ranks -/

/-- C6 counterexample: a collection named "Space - 2.1 Aliases" derives
`layerType = aliases-extended` (rank 2 in the claim's assignment) but the
sort comparator's `layerOrder` ranks it 1, because the comparator matches
"alias"/"extended"/"foundation"/"mapping" but not the "2.1" keyword. -/
theorem C6_layer_rank_counterexample :
    layerOrder "Space - 2.1 Aliases" = 1 ∧
    layerTypeRank (parseCollectionName "Space - 2.1 Aliases").layerType = 2 ∧
    layerOrder "Space - 2.1 Aliases" ≠
      layerTypeRank (parseCollectionName "Space - 2.1 Aliases").layerType := by
  with_unfolding_all decide

theorem collLe_total (a b : CollectionRec) : collLe a b = true ∨ collLe b a = true := by
  unfold collLe
  by_cases h : (parseCollectionName a.name).domain = (parseCollectionName b.name).domain
  · rw [if_pos h, if_pos h.symm]
    rcases Nat.le_total (layerOrder a.name) (layerOrder b.name) with h' | h'
    · exact Or.inl (decide_eq_true h')
    · exact Or.inr (decide_eq_true h')
  · rw [if_neg h, if_neg (fun hh => h hh.symm)]
    rcases lt_or_gt_of_ne h with h' | h'
    · exact Or.inl (decide_eq_true h')
    · exact Or.inr (decide_eq_true h')

theorem collLe_trans (a b c : CollectionRec) (hab : collLe a b = true)
    (hbc : collLe b c = true) : collLe a c = true := by
  unfold collLe at hab hbc ⊢
  by_cases h1 : (parseCollectionName a.name).domain = (parseCollectionName b.name).domain
  · by_cases h2 : (parseCollectionName b.name).domain = (parseCollectionName c.name).domain
    · rw [if_pos h1] at hab
      rw [if_pos h2] at hbc
      rw [if_pos (h1.trans h2)]
      exact decide_eq_true (Nat.le_trans (of_decide_eq_true hab) (of_decide_eq_true hbc))
    · rw [if_neg h2] at hbc
      have hlt : (parseCollectionName b.name).domain < (parseCollectionName c.name).domain :=
        of_decide_eq_true hbc
      rw [← h1] at hlt
      rw [if_neg (ne_of_lt hlt)]
      exact decide_eq_true hlt
  · rw [if_neg h1] at hab
    have hlt : (parseCollectionName a.name).domain < (parseCollectionName b.name).domain :=
      of_decide_eq_true hab
    by_cases h2 : (parseCollectionName b.name).domain = (parseCollectionName c.name).domain
    · rw [h2] at hlt
      rw [if_neg (ne_of_lt hlt)]
      exact decide_eq_true hlt
    · rw [if_neg h2] at hbc
      have hlt2 : (parseCollectionName b.name).domain < (parseCollectionName c.name).domain :=
        of_decide_eq_true hbc
      have := lt_trans hlt hlt2
      rw [if_neg (ne_of_lt this)]
      exact decide_eq_true this

/-- C6 amended.  The emitted collection list is sorted by the comparator
(domain lexicographic, ties by `layerOrder`), and `layerOrder` agrees with
the rank of the derived `layerType` for every collection name except those
containing "2.1" without "extended" (which `layerOrder` ranks as plain
aliases while `parseCollectionName` derives aliases-extended). -/
theorem C6_ordering_amended :
    (∀ (collections : List CollectionRec) (vars : List VariableInfo),
      (sortCollections collections vars).Pairwise (fun a b => collLe a b = true)) ∧
    (∀ nm : String,
      (strContains nm.toLower "2.1" = true → strContains nm.toLower "extended" = true) →
      layerOrder nm = layerTypeRank (parseCollectionName nm).layerType) := by
  constructor
  · intro collections vars
    exact pairwise_sortS collLe collLe_trans collLe_total _
  · intro nm h21
    by_cases hf : strContains nm.toLower "foundation" = true
    · simp [layerOrder, parseCollectionName, layerTypeRank, hf]
    · by_cases he : strContains nm.toLower "extended" = true
      · simp [layerOrder, parseCollectionName, layerTypeRank, hf, he]
      · by_cases h2 : strContains nm.toLower "2.1" = true
        · exact absurd (h21 h2) he
        · by_cases ha : strContains nm.toLower "alias" = true
          · simp [layerOrder, parseCollectionName, layerTypeRank, hf, he, h2, ha]
          · by_cases hm : strContains nm.toLower "mapping" = true
            · simp [layerOrder, parseCollectionName, layerTypeRank, hf, he, h2, ha, hm]
            · simp [layerOrder, parseCollectionName, layerTypeRank, hf, he, h2, ha, hm]

theorem C6_ordering_amended_witness :
    layerOrder "Space - Aliases Extended" =
      layerTypeRank (parseCollectionName "Space - Aliases Extended").layerType :=
  C6_ordering_amended.2 "Space - Aliases Extended" (by with_unfolding_all decide)

/-- C3 is a code bug: both collections produce `--space-fixed-1`; the
foundations collection is emitted first (sort order) and the aliases
variable is skipped in its default block, but the theme re-declaration
loops check the *global* emitted-names set (despite the inline comment
"Only output if this variable was in the main :root block"), so the
aliases collection re-declares `--space-fixed-1` with its own values
inside its theme blocks.  The stylesheet therefore contains declarations
for the identifier from both collections — under both supply orders. -/
theorem C3_dedup_bug_eval :
    (("  --space-fixed-1: 16px;" ∈
        (generateCSS [c3CollF, c3CollA] [c3VarF, c3VarA] optsStd "T").1) ∧
     ("  --space-fixed-1: 1px;" ∈
        (generateCSS [c3CollF, c3CollA] [c3VarF, c3VarA] optsStd "T").1)) ∧
    (("  --space-fixed-1: 16px;" ∈
        (generateCSS [c3CollA, c3CollF] [c3VarA, c3VarF] optsStd "T").1) ∧
     ("  --space-fixed-1: 1px;" ∈
        (generateCSS [c3CollA, c3CollF] [c3VarA, c3VarF] optsStd "T").1)) := by
  with_unfolding_all decide

/-- C4 counterexample: the claim says a self-aliased variable is emitted in
*no* block.  But when its identifier was already emitted by an earlier
collection, the theme re-declaration loops (which check the global
emitted-names set, not "declared in this :root") re-emit it:
`--space-x: var(--space-x);` appears in the theme blocks.  No diagnostic is
appended (that part of the claim holds). -/
theorem C4_self_alias_counterexample :
    ("  --space-x: var(--space-x);" ∈
       (generateCSS [c3CollF, c3CollA] [c4VarB, c4VarS] optsStd "T").1) ∧
    (generateCSS [c3CollF, c3CollA] [c4VarB, c4VarS] optsStd "T").2 = [] := by
  with_unfolding_all decide

/-- C4 amended, part machinery: a skipped partition step is the identity. -/
theorem fluidPartitionStep_skip (largestMode : BPMode) (modes : List BPMode)
    (opts : ExportOptions) (set : List String)
    (acc : List VariableInfo × List VariableInfo) (v : VariableInfo)
    (val : ProcessedValue)
    (hval : v.valuesByMode.lookup largestMode.modeId = some val)
    (halias : val.isAlias = true) (hname : val.aliasName = some v.cssName) :
    fluidPartitionStep largestMode modes opts set acc v = acc := by
  unfold fluidPartitionStep
  rw [hval]
  have hskip : shouldSkipVariable v val set = true := by
    unfold shouldSkipVariable
    rw [halias, hname]
    simp
  simp [hskip]

/-- C4 amended.  (1) In the fluid emitter, a variable whose value at the
largest mode is a self-alias (resolved target name equal to its own
cssName) contributes nothing at all: the emitted lines and the dedup set
are those of the same input without the variable.  (2) The resolution pass
appends no diagnostic for a variable all of whose alias values point at
its own id, provided the variable is in the graph. -/
theorem C4_self_alias_amended :
    (∀ (modes : List BPMode) (l r : List VariableInfo) (v : VariableInfo)
       (opts : ExportOptions) (set : List String) (val : ProcessedValue),
      v.valuesByMode.lookup (modes.headD dummyBP).modeId = some val →
      val.isAlias = true →
      val.aliasName = some v.cssName →
      generateFluidCSS modes (l ++ v :: r) opts set =
        generateFluidCSS modes (l ++ r) opts set) ∧
    (∀ (vars : List VariableInfo) (v : VariableInfo),
      v ∈ vars →
      (∀ p ∈ v.valuesByMode, p.2.isAlias = true → p.2.aliasId = some v.id) →
      (resolveVariable (lastById vars) v).2 = []) := by
  constructor
  · intro modes l r v opts set val hval halias hname
    unfold generateFluidCSS
    have hfold : (l ++ v :: r).foldl
        (fluidPartitionStep (modes.headD dummyBP) modes opts set) ([], []) =
        (l ++ r).foldl
        (fluidPartitionStep (modes.headD dummyBP) modes opts set) ([], []) := by
      rw [List.foldl_append, List.foldl_cons,
        fluidPartitionStep_skip _ modes opts set _ v val hval halias hname,
        ← List.foldl_append]
    simp only [hfold]
  · intro vars v hv hmodes
    have hlook : ∃ w, lastById vars v.id = some w := by
      unfold lastById
      have hne : vars.filter (fun w => w.id == v.id) ≠ [] := by
        intro h
        have hmem : v ∈ vars.filter (fun w => w.id == v.id) := by
          rw [List.mem_filter]
          exact ⟨hv, by simp⟩
        rw [h] at hmem
        exact absurd hmem (List.not_mem_nil v)
      rcases List.exists_mem_of_ne_nil _ hne with ⟨w, _⟩
      cases hg : (vars.filter (fun w => w.id == v.id)).getLast? with
      | none => exact absurd (List.getLast?_eq_none_iff.mp hg) hne
      | some w' => exact ⟨w', rfl⟩
    have hval : ∀ p ∈ v.valuesByMode,
        (resolveValue (lastById vars) v.name p.2).2 = [] := by
      intro p hp
      unfold resolveValue
      by_cases hA : p.2.isAlias = true
      · have hid := hmodes p hp hA
        rw [hA, hid]
        by_cases hemp : v.id = ""
        · simp [hemp]
        · rcases hlook with ⟨w, hw⟩
          simp [hemp, hw]
      · simp [hA]
    have hgen : ∀ (l : List (String × ProcessedValue))
        (acc : List (String × ProcessedValue) × List String),
        (∀ p ∈ l, (resolveValue (lastById vars) v.name p.2).2 = []) →
        (l.foldl (resolveStep (lastById vars) v.name) acc).2 = acc.2 := by
      intro l
      induction l with
      | nil => intro acc _; rfl
      | cons p ps ih =>
        intro acc hall
        rw [List.foldl_cons, ih _ (fun q hq => hall q (by simp [hq]))]
        simp [resolveStep, hall p (by simp)]
    exact hgen v.valuesByMode ([], []) hval

theorem C4_self_alias_amended_witness :
    (generateFluidCSS [⟨"m", "Desktop", 1680⟩] [c4VarW] optsStd [] =
      generateFluidCSS [⟨"m", "Desktop", 1680⟩] [] optsStd []) ∧
    (resolveVariable (lastById [c4VarW]) c4VarW).2 = [] :=
  ⟨C4_self_alias_amended.1 [⟨"m", "Desktop", 1680⟩] [] [] c4VarW optsStd []
     ⟨true, some "x", some "--x", none⟩ (by with_unfolding_all decide) rfl
     (by with_unfolding_all decide),
   C4_self_alias_amended.2 [c4VarW] c4VarW (by simp)
     (by intro p hp h; simp [c4VarW] at hp; subst hp; with_unfolding_all rfl)⟩

/-! ## C9: broken aliases are non-fatal and suppressed -/

theorem resolveFold (lookup : String → Option VariableInfo) (nm : String)
    (l : List (String × ProcessedValue))
    (acc : List (String × ProcessedValue) × List String) :
    l.foldl (resolveStep lookup nm) acc =
      (acc.1 ++ l.map (fun p => (p.1, (resolveValue lookup nm p.2).1)),
       acc.2 ++ l.flatMap (fun p => (resolveValue lookup nm p.2).2)) := by
  induction l generalizing acc with
  | nil => simp
  | cons p ps ih =>
    rw [List.foldl_cons, ih]
    simp [resolveStep, List.append_assoc]

theorem resolveVariable_eq (lookup : String → Option VariableInfo)
    (vi : VariableInfo) :
    resolveVariable lookup vi =
      ({ vi with valuesByMode :=
          vi.valuesByMode.map (fun p => (p.1, (resolveValue lookup vi.name p.2).1)) },
       vi.valuesByMode.flatMap (fun p => (resolveValue lookup vi.name p.2).2)) := by
  unfold resolveVariable
  rw [resolveFold]
  simp

theorem resolveVarsFold (lookup : String → Option VariableInfo)
    (l : List VariableInfo) (acc : List VariableInfo × List String) :
    l.foldl (resolveVarsStep lookup) acc =
      (acc.1 ++ l.map (fun vi => (resolveVariable lookup vi).1),
       acc.2 ++ l.flatMap (fun vi => (resolveVariable lookup vi).2)) := by
  induction l generalizing acc with
  | nil => simp
  | cons vi vis ih =>
    rw [List.foldl_cons, ih]
    simp [resolveVarsStep, List.append_assoc]

theorem resolveAliasNames_eq (vars : List VariableInfo) :
    resolveAliasNames vars =
      (vars.map (fun vi => (resolveVariable (lastById vars) vi).1),
       vars.flatMap (fun vi => (resolveVariable (lastById vars) vi).2)) := by
  unfold resolveAliasNames
  rw [resolveVarsFold]
  simp

/-- C9.  For an alias value whose target id is absent from the graph, the
resolution pass appends a diagnostic naming the source variable, still
processes every variable (the result is the per-variable map over the whole
input, in particular of the same length), leaves the value unresolved, and
the value formatter returns null for it under every option bundle, so no
declaration is emitted for that mode. -/
theorem C9_broken_alias (vars : List VariableInfo) (v : VariableInfo)
    (mid : String) (val : ProcessedValue) (t : String)
    (hv : v ∈ vars)
    (hmode : (mid, val) ∈ v.valuesByMode)
    (halias : val.isAlias = true)
    (hid : val.aliasId = some t)
    (hne : t ≠ "")
    (hmiss : ∀ w ∈ vars, w.id ≠ t) :
    (("Broken alias: " ++ v.name ++ " references unknown variable") ∈
       (resolveAliasNames vars).2) ∧
    (resolveAliasNames vars).1 =
      vars.map (fun vi => (resolveVariable (lastById vars) vi).1) ∧
    (resolveAliasNames vars).1.length = vars.length ∧
    resolveValue (lastById vars) v.name val =
      (val, ["Broken alias: " ++ v.name ++ " references unknown variable"]) ∧
    (val.aliasName = none → val.resolved = none →
      ∀ (opts : ExportOptions) (w : VariableInfo), formatCSSValue val w opts = none) := by
  have hlook : lastById vars t = none := by
    unfold lastById
    have hfil : vars.filter (fun w => w.id == t) = [] := by
      rw [List.filter_eq_nil_iff]
      intro w hw
      simp [hmiss w hw]
    rw [hfil]
    rfl
  have hrv : resolveValue (lastById vars) v.name val =
      (val, ["Broken alias: " ++ v.name ++ " references unknown variable"]) := by
    unfold resolveValue
    rw [halias, hid]
    simp [hne, hlook]
  refine ⟨?_, ?_, ?_, hrv, ?_⟩
  · rw [resolveAliasNames_eq]
    simp only [List.mem_flatMap]
    refine ⟨v, hv, ?_⟩
    rw [resolveVariable_eq]
    simp only [List.mem_flatMap]
    exact ⟨(mid, val), hmode, by rw [hrv]; simp⟩
  · rw [resolveAliasNames_eq]
  · rw [resolveAliasNames_eq]
    simp
  · intro hn hr opts w
    unfold formatCSSValue
    have : aliasNameTruthy val = false := by
      unfold aliasNameTruthy
      rw [hn]
    rw [this, hr]
    simp

/-! ## Fold lemmas for the theme emission loops (C7, C10) -/

theorem mem_addName (set : List String) (n m : String) :
    m ∈ addName set n ↔ m ∈ set ∨ m = n := by
  unfold addName
  by_cases h : set.contains n
  · rw [if_pos h]
    constructor
    · exact Or.inl
    · rintro (hm | rfl)
      · exact hm
      · simpa using h
  · rw [if_neg h]
    simp

theorem spacePrefixed_four (r : String) : spacePrefixed ("    " ++ r) :=
  ⟨"  " ++ r, by rw [← String.append_assoc]; rfl⟩

theorem spacePrefixed_ne (x s : String) (hx : spacePrefixed x)
    (hs : s.data.head? ≠ some ' ') : x ≠ s := by
  rcases hx with ⟨r, rfl⟩
  intro h
  apply hs
  rw [← h]
  rfl

theorem rootEmitStep_eq_none (modeId : String) (opts : ExportOptions)
    (acc : List String × List String) (v : VariableInfo)
    (hval : v.valuesByMode.lookup modeId = none) :
    rootEmitStep modeId opts acc v = acc := by
  simp [rootEmitStep, hval]

theorem rootEmitStep_eq_skip (modeId : String) (opts : ExportOptions)
    (acc : List String × List String) (v : VariableInfo) (val : ProcessedValue)
    (hval : v.valuesByMode.lookup modeId = some val)
    (hs : shouldSkipVariable v val acc.2 = true) :
    rootEmitStep modeId opts acc v = acc := by
  simp [rootEmitStep, hval, hs]

theorem rootEmitStep_eq_null (modeId : String) (opts : ExportOptions)
    (acc : List String × List String) (v : VariableInfo) (val : ProcessedValue)
    (hval : v.valuesByMode.lookup modeId = some val)
    (hs : ¬shouldSkipVariable v val acc.2 = true)
    (hf : formatCSSValue val v opts = none) :
    rootEmitStep modeId opts acc v = acc := by
  simp [rootEmitStep, hval, hs, hf]

theorem rootEmitStep_eq_emit (modeId : String) (opts : ExportOptions)
    (acc : List String × List String) (v : VariableInfo) (val : ProcessedValue)
    (c : String)
    (hval : v.valuesByMode.lookup modeId = some val)
    (hs : ¬shouldSkipVariable v val acc.2 = true)
    (hf : formatCSSValue val v opts = some c) :
    rootEmitStep modeId opts acc v =
      (acc.1 ++ idComment opts v ++ ["  " ++ v.cssName ++ ": " ++ c ++ ";"],
       addName acc.2 v.cssName) := by
  simp [rootEmitStep, hval, hs, hf]

theorem rootEmitStep_shape (modeId : String) (opts : ExportOptions)
    (acc : List String × List String) (v : VariableInfo) :
    (∃ ls, (rootEmitStep modeId opts acc v).1 = acc.1 ++ ls ∧
       ∀ x ∈ ls, spacePrefixed x) ∧
    ((rootEmitStep modeId opts acc v).2 = acc.2 ∨
      (rootEmitStep modeId opts acc v).2 = addName acc.2 v.cssName) := by
  cases hval : v.valuesByMode.lookup modeId with
  | none =>
    rw [rootEmitStep_eq_none modeId opts acc v hval]
    exact ⟨⟨[], by simp, by simp⟩, Or.inl rfl⟩
  | some val =>
    by_cases hs : shouldSkipVariable v val acc.2 = true
    · rw [rootEmitStep_eq_skip modeId opts acc v val hval hs]
      exact ⟨⟨[], by simp, by simp⟩, Or.inl rfl⟩
    · cases hf : formatCSSValue val v opts with
      | none =>
        rw [rootEmitStep_eq_null modeId opts acc v val hval hs hf]
        exact ⟨⟨[], by simp, by simp⟩, Or.inl rfl⟩
      | some c =>
        rw [rootEmitStep_eq_emit modeId opts acc v val c hval hs hf]
        refine ⟨⟨idComment opts v ++ ["  " ++ v.cssName ++ ": " ++ c ++ ";"],
          by simp, ?_⟩, Or.inr rfl⟩
        intro x hx
        rcases List.mem_append.mp hx with hx | hx
        · unfold idComment at hx
          by_cases hi : opts.includeIds = true
          · rw [if_pos hi] at hx
            simp only [List.mem_singleton] at hx
            subst hx
            exact ⟨"/* " ++ v.id ++ " */", by
              simp only [← String.append_assoc]; rfl⟩
          · rw [if_neg hi] at hx
            simp at hx
        · simp only [List.mem_singleton] at hx
          subst hx
          exact ⟨v.cssName ++ ": " ++ c ++ ";", by simp [String.append_assoc]⟩

theorem rootEmit_fold_facts (modeId : String) (opts : ExportOptions)
    (l : List VariableInfo) (acc : List String × List String) :
    (∀ x ∈ acc.1, x ∈ (l.foldl (rootEmitStep modeId opts) acc).1) ∧
    (∀ n ∈ acc.2, n ∈ (l.foldl (rootEmitStep modeId opts) acc).2) ∧
    (∀ n, n ∈ (l.foldl (rootEmitStep modeId opts) acc).2 →
      n ∈ acc.2 ∨ ∃ v ∈ l, v.cssName = n) ∧
    (∀ x ∈ (l.foldl (rootEmitStep modeId opts) acc).1,
      x ∈ acc.1 ∨ spacePrefixed x) := by
  induction l generalizing acc with
  | nil =>
    exact ⟨fun _ h => h, fun _ h => h, fun _ h => Or.inl h, fun _ h => Or.inl h⟩
  | cons v vs ih =>
    obtain ⟨⟨ls, hls, hsp⟩, hset⟩ := rootEmitStep_shape modeId opts acc v
    rw [List.foldl_cons]
    refine ⟨?_, ?_, ?_, ?_⟩
    · intro x hx
      exact (ih _).1 x (by rw [hls]; exact List.mem_append_left _ hx)
    · intro n hn
      apply (ih _).2.1 n
      rcases hset with h | h <;> rw [h]
      · exact hn
      · exact (mem_addName _ _ _).mpr (Or.inl hn)
    · intro n hn
      rcases (ih _).2.2.1 n hn with h | ⟨w, hw, hwn⟩
      · rcases hset with h2 | h2
        · rw [h2] at h
          exact Or.inl h
        · rw [h2] at h
          rcases (mem_addName _ _ _).mp h with h3 | h3
          · exact Or.inl h3
          · exact Or.inr ⟨v, List.mem_cons_self _ _, h3.symm⟩
      · exact Or.inr ⟨w, List.mem_cons_of_mem _ hw, hwn⟩
    · intro x hx
      rcases (ih _).2.2.2 x hx with h | h
      · rw [hls] at h
        rcases List.mem_append.mp h with h2 | h2
        · exact Or.inl h2
        · exact Or.inr (hsp x h2)
      · exact Or.inr h

/-- The variable at the split point is actually declared by the default-block
loop, provided its name is fresh against the initial set and the variables
processed before it, its value is present, formats non-null, and it is not a
self-alias. -/
theorem rootEmit_emits (modeId : String) (opts : ExportOptions)
    (l₁ l₂ : List VariableInfo) (v : VariableInfo) (set₀ : List String)
    (val : ProcessedValue) (c : String)
    (hval : v.valuesByMode.lookup modeId = some val)
    (hfmt : formatCSSValue val v opts = some c)
    (hself : ¬(val.isAlias = true ∧ val.aliasName = some v.cssName))
    (hset : v.cssName ∉ set₀)
    (hfresh : ∀ w ∈ l₁, w.cssName ≠ v.cssName) :
    ("  " ++ v.cssName ++ ": " ++ c ++ ";") ∈
      (((l₁ ++ v :: l₂).foldl (rootEmitStep modeId opts) ([], set₀)).1) ∧
    v.cssName ∈ (((l₁ ++ v :: l₂).foldl (rootEmitStep modeId opts) ([], set₀)).2) := by
  have hnotin : v.cssName ∉ (l₁.foldl (rootEmitStep modeId opts) ([], set₀)).2 := by
    intro hmem
    rcases (rootEmit_fold_facts modeId opts l₁ ([], set₀)).2.2.1 _ hmem with h | ⟨w, hw, hwn⟩
    · exact hset h
    · exact hfresh w hw hwn
  have hskip : shouldSkipVariable v val
      (l₁.foldl (rootEmitStep modeId opts) ([], set₀)).2 = false := by
    unfold shouldSkipVariable
    have h1 : (val.isAlias && val.aliasName == some v.cssName) = false := by
      rcases hA : val.isAlias
      · rfl
      · simp only [Bool.true_and]
        rw [beq_eq_false_iff_ne]
        intro heq
        exact hself ⟨hA, heq⟩
    have h2 : (l₁.foldl (rootEmitStep modeId opts) ([], set₀)).2.contains v.cssName = false := by
      rw [← Bool.not_eq_true]
      intro hc
      exact hnotin (by simpa using hc)
    rw [h1, h2]
    rfl
  have hstep : rootEmitStep modeId opts (l₁.foldl (rootEmitStep modeId opts) ([], set₀)) v =
      ((l₁.foldl (rootEmitStep modeId opts) ([], set₀)).1 ++ idComment opts v ++
        ["  " ++ v.cssName ++ ": " ++ c ++ ";"],
       addName (l₁.foldl (rootEmitStep modeId opts) ([], set₀)).2 v.cssName) := by
    exact rootEmitStep_eq_emit modeId opts _ v val c hval (by rw [hskip]; simp) hfmt
  rw [List.foldl_append, List.foldl_cons, hstep]
  constructor
  · apply (rootEmit_fold_facts modeId opts l₂ _).1
    simp
  · apply (rootEmit_fold_facts modeId opts l₂ _).2.1
    exact (mem_addName _ _ _).mpr (Or.inr rfl)

theorem themeRedeclStep_eq_none (mode : ModeRec) (opts : ExportOptions)
    (set : List String) (indent : String) (acc : List String) (v : VariableInfo)
    (hval : v.valuesByMode.lookup mode.modeId = none) :
    themeRedeclStep mode opts set indent acc v = acc := by
  simp [themeRedeclStep, hval]

theorem themeRedeclStep_eq_notin (mode : ModeRec) (opts : ExportOptions)
    (set : List String) (indent : String) (acc : List String) (v : VariableInfo)
    (val : ProcessedValue)
    (hval : v.valuesByMode.lookup mode.modeId = some val)
    (hc : set.contains v.cssName = false) :
    themeRedeclStep mode opts set indent acc v = acc := by
  have hm : v.cssName ∉ set := by simpa using hc
  simp [themeRedeclStep, hval, hm]

theorem themeRedeclStep_eq_null (mode : ModeRec) (opts : ExportOptions)
    (set : List String) (indent : String) (acc : List String) (v : VariableInfo)
    (val : ProcessedValue)
    (hval : v.valuesByMode.lookup mode.modeId = some val)
    (hc : set.contains v.cssName = true)
    (hf : formatCSSValue val v opts = none) :
    themeRedeclStep mode opts set indent acc v = acc := by
  have hm : v.cssName ∈ set := by simpa using hc
  simp [themeRedeclStep, hval, hm, hf]

theorem themeRedeclStep_eq_emit (mode : ModeRec) (opts : ExportOptions)
    (set : List String) (indent : String) (acc : List String) (v : VariableInfo)
    (val : ProcessedValue) (c : String)
    (hval : v.valuesByMode.lookup mode.modeId = some val)
    (hc : set.contains v.cssName = true)
    (hf : formatCSSValue val v opts = some c) :
    themeRedeclStep mode opts set indent acc v =
      acc ++ [indent ++ v.cssName ++ ": " ++ c ++ ";"] := by
  have hm : v.cssName ∈ set := by simpa using hc
  simp [themeRedeclStep, hval, hm, hf]

theorem themeRedeclStep_shape (mode : ModeRec) (opts : ExportOptions)
    (set : List String) (indent : String) (acc : List String) (v : VariableInfo) :
    ∃ ls, themeRedeclStep mode opts set indent acc v = acc ++ ls ∧
      ∀ x ∈ ls, ∃ r, x = indent ++ r := by
  rcases hl : v.valuesByMode.lookup mode.modeId with _ | val
  · rw [themeRedeclStep_eq_none mode opts set indent acc v hl]
    exact ⟨[], by simp, by simp⟩
  · rcases hc : set.contains v.cssName
    · rw [themeRedeclStep_eq_notin mode opts set indent acc v val hl hc]
      exact ⟨[], by simp, by simp⟩
    · rcases hf : formatCSSValue val v opts with _ | c
      · rw [themeRedeclStep_eq_null mode opts set indent acc v val hl hc hf]
        exact ⟨[], by simp, by simp⟩
      · rw [themeRedeclStep_eq_emit mode opts set indent acc v val c hl hc hf]
        refine ⟨[indent ++ v.cssName ++ ": " ++ c ++ ";"], rfl, ?_⟩
        intro x hx
        simp only [List.mem_singleton] at hx
        subst hx
        exact ⟨v.cssName ++ ": " ++ c ++ ";", by simp [String.append_assoc]⟩

theorem themeRedecls_fold_facts (mode : ModeRec) (opts : ExportOptions)
    (set : List String) (indent : String) (l : List VariableInfo) (acc : List String) :
    (∀ x ∈ acc, x ∈ l.foldl (themeRedeclStep mode opts set indent) acc) ∧
    (∀ x ∈ l.foldl (themeRedeclStep mode opts set indent) acc,
      x ∈ acc ∨ ∃ r, x = indent ++ r) := by
  induction l generalizing acc with
  | nil =>
    exact ⟨fun _ h => h, fun _ h => Or.inl h⟩
  | cons v vs ih =>
    obtain ⟨ls, hls, hsp⟩ := themeRedeclStep_shape mode opts set indent acc v
    rw [List.foldl_cons]
    constructor
    · intro x hx
      exact (ih _).1 x (by rw [hls]; exact List.mem_append_left _ hx)
    · intro x hx
      rcases (ih _).2 x hx with h | h
      · rw [hls] at h
        rcases List.mem_append.mp h with h2 | h2
        · exact Or.inl h2
        · exact Or.inr (hsp x h2)
      · exact Or.inr h

theorem themeRedecls_shape (vars : List VariableInfo) (mode : ModeRec)
    (opts : ExportOptions) (set : List String) (indent : String) :
    ∀ x ∈ themeRedecls vars mode opts set indent, ∃ r, x = indent ++ r := by
  intro x hx
  rcases (themeRedecls_fold_facts mode opts set indent vars []).2 x hx with h | h
  · exact absurd h (List.not_mem_nil x)
  · exact h

theorem themeRedecls_emits (mode : ModeRec) (opts : ExportOptions)
    (set : List String) (indent : String) (l₁ l₂ : List VariableInfo)
    (v : VariableInfo) (val : ProcessedValue) (c : String)
    (hval : v.valuesByMode.lookup mode.modeId = some val)
    (hin : v.cssName ∈ set)
    (hfmt : formatCSSValue val v opts = some c) :
    (indent ++ v.cssName ++ ": " ++ c ++ ";") ∈
      themeRedecls (l₁ ++ v :: l₂) mode opts set indent := by
  unfold themeRedecls
  rw [List.foldl_append, List.foldl_cons]
  have hstep : themeRedeclStep mode opts set indent
      (l₁.foldl (themeRedeclStep mode opts set indent) []) v =
      (l₁.foldl (themeRedeclStep mode opts set indent) []) ++
        [indent ++ v.cssName ++ ": " ++ c ++ ";"] := by
    exact themeRedeclStep_eq_emit mode opts set indent _ v val c hval
      (by simpa using hin) hfmt
  rw [hstep]
  apply (themeRedecls_fold_facts mode opts set indent l₂ _).1
  simp

theorem C9_broken_alias_witness :
    ("Broken alias: broken/one references unknown variable" ∈
       (resolveAliasNames [c9Var]).2) ∧
    formatCSSValue ⟨true, some "zz", none, none⟩ c9Var optsStd = none := by
  have h := C9_broken_alias [c9Var] c9Var "m" ⟨true, some "zz", none, none⟩ "zz"
    (by simp) (by with_unfolding_all decide) rfl rfl
    (by with_unfolding_all decide)
    (by intro w hw; simp at hw; subst hw; with_unfolding_all decide)
  exact ⟨h.1, h.2.2.2.2 rfl rfl optsStd c9Var⟩

/-- Structure of the theme-emission output when both a light and a dark mode
are found: the default block, the two optional `prefers-color-scheme` blocks,
the unconditional `[data-theme="light"]` block and the optional
`[data-theme="dark"]` block, in that order. -/
theorem generateThemeCSS_eq (coll : CollectionRec) (vars : List VariableInfo)
    (opts : ExportOptions) (names₀ : List String) (lm dm : ModeRec)
    (hlm : findLastTheme coll.modes "light" = some lm)
    (hdm : findLastTheme coll.modes "dark" = some dm) :
    generateThemeCSS coll vars opts names₀ =
      (([":root \x7b"] ++ (vars.foldl (rootEmitStep lm.modeId opts) ([], names₀)).1 ++ ["\x7d"]) ++
       (if opts.darkModeOutput == .prefersColorScheme || opts.darkModeOutput == .both then
          ["", "@media (prefers-color-scheme: light) \x7b", "  :root \x7b"] ++
          themeRedecls vars lm opts
            (vars.foldl (rootEmitStep lm.modeId opts) ([], names₀)).2 "    " ++
          ["  \x7d", "\x7d"]
        else []) ++
       (if opts.darkModeOutput == .prefersColorScheme || opts.darkModeOutput == .both then
          ["", "@media (prefers-color-scheme: dark) \x7b", "  :root \x7b"] ++
          themeRedecls vars dm opts
            (vars.foldl (rootEmitStep lm.modeId opts) ([], names₀)).2 "    " ++
          ["  \x7d", "\x7d"]
        else []) ++
       (["", "/* Explicit theme selectors - These override system preferences",
         "   and enable manual theme switching via JavaScript */",
         "[data-theme=\"light\"] \x7b"] ++
        themeRedecls vars lm opts
          (vars.foldl (rootEmitStep lm.modeId opts) ([], names₀)).2 "  " ++ ["\x7d"]) ++
       (if opts.darkModeOutput == .classAttr || opts.darkModeOutput == .both then
          ["", "[data-theme=\"dark\"] \x7b"] ++
          themeRedecls vars dm opts
            (vars.foldl (rootEmitStep lm.modeId opts) ([], names₀)).2 "  " ++ ["\x7d"]
        else []),
       (vars.foldl (rootEmitStep lm.modeId opts) ([], names₀)).2) := by
  simp only [generateThemeCSS, hlm, hdm, Option.getD_some, List.append_assoc]

/-- A line starting with two spaces is never a `[data-theme="dark"]` header. -/
theorem spacePrefixed_not_dark (x : String) (hx : spacePrefixed x) :
    x ≠ "[data-theme=\"dark\"] \x7b" :=
  spacePrefixed_ne x _ hx (by with_unfolding_all decide)

/-- C7. The re-declaration loops require the theme-mode value to be present
and to format non-null; being declared in the default block is not enough.
`--t` is declared in `:root` and in the light block, but the dark
`prefers-color-scheme` block is empty because the variable has no dark-mode
entry. -/
theorem C7_theme_redeclare_counterexample :
    (generateThemeCSS c7Coll [c7Var] optsPCS []).1 =
      [":root \x7b", "  --t: 1px;", "\x7d",
       "", "@media (prefers-color-scheme: light) \x7b", "  :root \x7b",
       "    --t: 1px;", "  \x7d", "\x7d",
       "", "@media (prefers-color-scheme: dark) \x7b", "  :root \x7b",
       "  \x7d", "\x7d",
       "", "/* Explicit theme selectors - These override system preferences",
       "   and enable manual theme switching via JavaScript */",
       "[data-theme=\"light\"] \x7b", "  --t: 1px;", "\x7d"] := by
  with_unfolding_all decide

/-- C7 (amended): with both theme modes found and `prefers-color-scheme`
output selected, a variable whose name is in the emitted-names set after the
default block and whose light and dark values are present and format
non-null is re-declared in both `prefers-color-scheme` blocks; no equality
or inequality of the two formatted values is assumed, so this covers the
case of identical light and dark values. -/
theorem C7_theme_redeclare_amended
    (coll : CollectionRec) (vars l₁ l₂ : List VariableInfo) (v : VariableInfo)
    (opts : ExportOptions) (names₀ : List String) (lm dm : ModeRec)
    (valL valD : ProcessedValue) (cL cD : String)
    (hlm : findLastTheme coll.modes "light" = some lm)
    (hdm : findLastTheme coll.modes "dark" = some dm)
    (hpcs : opts.darkModeOutput = .prefersColorScheme ∨ opts.darkModeOutput = .both)
    (hvars : vars = l₁ ++ v :: l₂)
    (hset : v.cssName ∈ (vars.foldl (rootEmitStep lm.modeId opts) ([], names₀)).2)
    (hlv : v.valuesByMode.lookup lm.modeId = some valL)
    (hlf : formatCSSValue valL v opts = some cL)
    (hdv : v.valuesByMode.lookup dm.modeId = some valD)
    (hdf : formatCSSValue valD v opts = some cD) :
    ("    " ++ v.cssName ++ ": " ++ cL ++ ";") ∈
      themeRedecls vars lm opts
        (vars.foldl (rootEmitStep lm.modeId opts) ([], names₀)).2 "    " ∧
    ("    " ++ v.cssName ++ ": " ++ cD ++ ";") ∈
      themeRedecls vars dm opts
        (vars.foldl (rootEmitStep lm.modeId opts) ([], names₀)).2 "    " ∧
    ("    " ++ v.cssName ++ ": " ++ cL ++ ";") ∈ (generateThemeCSS coll vars opts names₀).1 ∧
    ("    " ++ v.cssName ++ ": " ++ cD ++ ";") ∈ (generateThemeCSS coll vars opts names₀).1 := by
  subst hvars
  have h1 := themeRedecls_emits lm opts
    (((l₁ ++ v :: l₂)).foldl (rootEmitStep lm.modeId opts) ([], names₀)).2 "    "
    l₁ l₂ v valL cL hlv hset hlf
  have h2 := themeRedecls_emits dm opts
    (((l₁ ++ v :: l₂)).foldl (rootEmitStep lm.modeId opts) ([], names₀)).2 "    "
    l₁ l₂ v valD cD hdv hset hdf
  have hcond : (opts.darkModeOutput == DarkModeOutput.prefersColorScheme ||
      opts.darkModeOutput == DarkModeOutput.both) = true := by
    rcases hpcs with h | h <;> rw [h] <;> rfl
  refine ⟨h1, h2, ?_, ?_⟩ <;>
    rw [generateThemeCSS_eq coll _ opts names₀ lm dm hlm hdm] <;>
    simp only [hcond, if_true, List.mem_append, List.mem_cons, List.mem_singleton] <;>
    tauto

theorem C7_theme_redeclare_amended_witness :
    ("    " ++ c7VarW.cssName ++ ": " ++ "1px" ++ ";") ∈
      themeRedecls [c7VarW] ⟨"ml", "Light"⟩ optsStd
        (([c7VarW]).foldl (rootEmitStep "ml" optsStd) ([], [])).2 "    " ∧
    ("    " ++ c7VarW.cssName ++ ": " ++ "1px" ++ ";") ∈
      themeRedecls [c7VarW] ⟨"md", "Dark"⟩ optsStd
        (([c7VarW]).foldl (rootEmitStep "ml" optsStd) ([], [])).2 "    " ∧
    ("    " ++ c7VarW.cssName ++ ": " ++ "1px" ++ ";") ∈
      (generateThemeCSS c7Coll [c7VarW] optsStd []).1 ∧
    ("    " ++ c7VarW.cssName ++ ": " ++ "1px" ++ ";") ∈
      (generateThemeCSS c7Coll [c7VarW] optsStd []).1 :=
  C7_theme_redeclare_amended c7Coll [c7VarW] [] [] c7VarW optsStd []
    ⟨"ml", "Light"⟩ ⟨"md", "Dark"⟩
    ⟨false, none, none, some (.num 1)⟩ ⟨false, none, none, some (.num 1)⟩
    "1px" "1px"
    (by with_unfolding_all decide) (by with_unfolding_all decide)
    (Or.inr rfl) rfl
    (by with_unfolding_all decide)
    (by with_unfolding_all decide) (by with_unfolding_all decide)
    (by with_unfolding_all decide) (by with_unfolding_all decide)

/-- C10. With both theme modes found, the `[data-theme="light"]` block is
emitted for every value of `darkModeOutput` (including
`prefers-color-scheme`), re-declaring each default-block variable whose
light value is present and formats non-null, while the
`[data-theme="dark"]` header appears in the output exactly when
`darkModeOutput` is `class` or `both`. -/
theorem C10_data_theme_light
    (coll : CollectionRec) (vars l₁ l₂ : List VariableInfo) (v : VariableInfo)
    (opts : ExportOptions) (names₀ : List String) (lm dm : ModeRec)
    (valL : ProcessedValue) (cL : String)
    (hlm : findLastTheme coll.modes "light" = some lm)
    (hdm : findLastTheme coll.modes "dark" = some dm)
    (hvars : vars = l₁ ++ v :: l₂)
    (hset : v.cssName ∈ (vars.foldl (rootEmitStep lm.modeId opts) ([], names₀)).2)
    (hlv : v.valuesByMode.lookup lm.modeId = some valL)
    (hlf : formatCSSValue valL v opts = some cL) :
    ("[data-theme=\"light\"] \x7b" : String) ∈ (generateThemeCSS coll vars opts names₀).1 ∧
    ("  " ++ v.cssName ++ ": " ++ cL ++ ";") ∈
      themeRedecls vars lm opts
        (vars.foldl (rootEmitStep lm.modeId opts) ([], names₀)).2 "  " ∧
    ("  " ++ v.cssName ++ ": " ++ cL ++ ";") ∈ (generateThemeCSS coll vars opts names₀).1 ∧
    (("[data-theme=\"dark\"] \x7b" : String) ∈ (generateThemeCSS coll vars opts names₀).1 ↔
      opts.darkModeOutput = .classAttr ∨ opts.darkModeOutput = .both) := by
  subst hvars
  have h1 := themeRedecls_emits lm opts
    (((l₁ ++ v :: l₂)).foldl (rootEmitStep lm.modeId opts) ([], names₀)).2 "  "
    l₁ l₂ v valL cL hlv hset hlf
  refine ⟨?_, h1, ?_, ?_⟩
  · rw [generateThemeCSS_eq coll _ opts names₀ lm dm hlm hdm]
    simp [List.mem_append]
  · rw [generateThemeCSS_eq coll _ opts names₀ lm dm hlm hdm]
    simp only [List.mem_append, List.mem_cons, List.mem_singleton]
    tauto
  · constructor
    · intro h
      rw [generateThemeCSS_eq coll _ opts names₀ lm dm hlm hdm] at h
      rcases hdo : opts.darkModeOutput with _ | _ | _
      · exfalso
        rw [hdo] at h
        rcases List.mem_append.mp h with h | hE
        · rcases List.mem_append.mp h with h | hD
          · rcases List.mem_append.mp h with h | hC
            · rcases List.mem_append.mp h with hA | hB
              · rcases List.mem_append.mp hA with hA | hz
                · rcases List.mem_append.mp hA with ha | hp
                  · exact absurd ha (by with_unfolding_all decide)
                  · rcases (rootEmit_fold_facts lm.modeId opts _ ([], names₀)).2.2.2 _ hp
                      with h0 | hsp
                    · exact absurd h0 (List.not_mem_nil _)
                    · exact spacePrefixed_not_dark _ hsp rfl
                · exact absurd hz (by with_unfolding_all decide)
              · rw [if_pos (show (DarkModeOutput.prefersColorScheme ==
                    DarkModeOutput.prefersColorScheme ||
                    DarkModeOutput.prefersColorScheme == DarkModeOutput.both) = true
                    from rfl)] at hB
                rcases List.mem_append.mp hB with hB | hz
                · rcases List.mem_append.mp hB with hfix | hred
                  · exact absurd hfix (by with_unfolding_all decide)
                  · obtain ⟨r, hr⟩ := themeRedecls_shape _ _ _ _ _ _ hred
                    exact spacePrefixed_not_dark _
                      (by rw [hr]; exact spacePrefixed_four r) rfl
                · exact absurd hz (by with_unfolding_all decide)
            · rw [if_pos (show (DarkModeOutput.prefersColorScheme ==
                  DarkModeOutput.prefersColorScheme ||
                  DarkModeOutput.prefersColorScheme == DarkModeOutput.both) = true
                  from rfl)] at hC
              rcases List.mem_append.mp hC with hC | hz
              · rcases List.mem_append.mp hC with hfix | hred
                · exact absurd hfix (by with_unfolding_all decide)
                · obtain ⟨r, hr⟩ := themeRedecls_shape _ _ _ _ _ _ hred
                  exact spacePrefixed_not_dark _
                    (by rw [hr]; exact spacePrefixed_four r) rfl
              · exact absurd hz (by with_unfolding_all decide)
          · rcases List.mem_append.mp hD with hD | hz
            · rcases List.mem_append.mp hD with hfix | hred
              · exact absurd hfix (by with_unfolding_all decide)
              · obtain ⟨r, hr⟩ := themeRedecls_shape _ _ _ _ _ _ hred
                exact spacePrefixed_not_dark _ ⟨r, hr⟩ rfl
            · exact absurd hz (by with_unfolding_all decide)
        · rw [if_neg (show ¬((DarkModeOutput.prefersColorScheme ==
              DarkModeOutput.classAttr ||
              DarkModeOutput.prefersColorScheme == DarkModeOutput.both) = true)
              from by with_unfolding_all decide)] at hE
          exact absurd hE (List.not_mem_nil _)
      · exact Or.inl rfl
      · exact Or.inr rfl
    · intro h
      have hcl : (opts.darkModeOutput == DarkModeOutput.classAttr ||
          opts.darkModeOutput == DarkModeOutput.both) = true := by
        rcases h with h | h <;> rw [h] <;> rfl
      rw [generateThemeCSS_eq coll _ opts names₀ lm dm hlm hdm]
      simp only [hcl, if_true, List.mem_append, List.mem_cons, List.mem_singleton]
      tauto

theorem C10_data_theme_light_witness :
    ("[data-theme=\"light\"] \x7b" : String) ∈
      (generateThemeCSS c7Coll [c7VarW] optsPCS []).1 ∧
    ("  " ++ c7VarW.cssName ++ ": " ++ "1px" ++ ";") ∈
      themeRedecls [c7VarW] ⟨"ml", "Light"⟩ optsPCS
        (([c7VarW]).foldl (rootEmitStep "ml" optsPCS) ([], [])).2 "  " ∧
    ("  " ++ c7VarW.cssName ++ ": " ++ "1px" ++ ";") ∈
      (generateThemeCSS c7Coll [c7VarW] optsPCS []).1 ∧
    (("[data-theme=\"dark\"] \x7b" : String) ∈
        (generateThemeCSS c7Coll [c7VarW] optsPCS []).1 ↔
      optsPCS.darkModeOutput = .classAttr ∨ optsPCS.darkModeOutput = .both) :=
  C10_data_theme_light c7Coll [c7VarW] [] [] c7VarW optsPCS []
    ⟨"ml", "Light"⟩ ⟨"md", "Dark"⟩
    ⟨false, none, none, some (.num 1)⟩ "1px"
    (by with_unfolding_all decide) (by with_unfolding_all decide) rfl
    (by with_unfolding_all decide)
    (by with_unfolding_all decide) (by with_unfolding_all decide)

end FigVar
